import Mathlib

/-!
# nansql: a forwarding layer over a database client library

The repository wraps the connection handle (`*sqlx.DB`) and the transaction
handle (`*sqlx.Tx`) of a client library.  Every method of the repository is
embedded below as a program over an explicit world: the state of the client
library and the database behind it.  The client library itself is not part of
the repository, so it is a parameter (`Driver`): one response function for each
library entry point the repository calls.

Go pointers are `Option` handles (`none` is `nil`), a Go `error` is an
`Option Err` (`none` is `nil`), and a method call through a `nil` pointer is
the run-time nil-dereference panic.
-/

namespace Nansql

/-! ## Values crossing the API -/

/-- Go `error` values that are not nil, identified by their message. -/
abbrev Err := String

/-- A `context.Context`: an identity and whether it is cancelled or expired. -/
structure Context where
  id : Nat
  done : Bool
  deriving DecidableEq, Repr

/-- An `interface{}` argument of a query. -/
inductive Value where
  | null
  | int (i : Int)
  | str (s : String)
  deriving DecidableEq, Repr

/-- What a non-nil `*sqlx.DB` points to. -/
structure DBHandle where
  id : Nat
  deriving DecidableEq, Repr

/-- What a non-nil `*sqlx.Tx` points to. -/
structure TxHandle where
  id : Nat
  deriving DecidableEq, Repr

/-- What a non-nil `*sqlx.Rows` points to. -/
structure Rows where
  id : Nat
  deriving DecidableEq, Repr

/-- What a non-nil `*sqlx.Row` points to. -/
structure Row where
  id : Nat
  deriving DecidableEq, Repr

/-- A `sql.Result`. -/
structure Result where
  id : Nat
  deriving DecidableEq, Repr

/-- What a non-nil `*sqlx.Stmt` points to. -/
structure Stmt where
  id : Nat
  deriving DecidableEq, Repr

/-- The `dest interface{}` of `Select` and `Get`: where the caller wants the rows. -/
structure Dest where
  addr : Nat
  deriving DecidableEq, Repr

/-- The receiver of a query operation of the library: the pool or a transaction. -/
inductive Target where
  | db (h : DBHandle)
  | tx (h : TxHandle)
  deriving DecidableEq, Repr

/-- config.go: `DatabaseConfig`.  `int` and `time.Duration` are signed integers. -/
structure DatabaseConfig where
  Driver : String
  DSN : String
  MaxIdleConnections : Int
  MaxOpenConnections : Int
  MaxIdleDuration : Int
  MaxLifeTimeDuration : Int
  deriving DecidableEq, Repr

/-! ## Effects -/

/-- One observable effect of the repository's code: a call into the client library,
with the arguments it was given, or a line handed to the standard logger. -/
inductive Event where
  | connect (driver dsn : String)
  | setMaxIdleConns (db : DBHandle) (n : Int)
  | setMaxOpenConns (db : DBHandle) (n : Int)
  | setConnMaxIdleTime (db : DBHandle) (d : Int)
  | setConnMaxLifetime (db : DBHandle) (d : Int)
  | close (db : DBHandle)
  | beginTxx (db : DBHandle) (ctx : Context)
  | commit (tx : TxHandle)
  | rollback (tx : TxHandle)
  | queryxContext (recv : Target) (ctx : Context) (query : String) (args : List Value)
  | queryRowxContext (recv : Target) (ctx : Context) (query : String) (args : List Value)
  | execContext (recv : Target) (ctx : Context) (query : String) (args : List Value)
  | preparexContext (recv : Target) (ctx : Context) (query : String)
  | selectContext (recv : Target) (ctx : Context) (dest : Dest) (query : String)
      (args : List Value)
  | getContext (recv : Target) (ctx : Context) (dest : Dest) (query : String)
      (args : List Value)
  | rebind (recv : Target) (query : String)
  | namedExecContext (recv : Target) (ctx : Context) (query : String) (arg : Value)
  | logPrintln (msg : String)
  | logFatalf (msg : String)
  deriving DecidableEq, Repr

/-- The client library and the database behind it, over a world `σ`.  Each field is the
response of one library entry point: what it returns and the world it leaves.
`Rebind` only reads the immutable driver name of its receiver, so it is a function of
the receiver and the query alone. -/
structure Driver (σ : Type) where
  Connect : String → String → σ → (Option DBHandle × Option Err) × σ
  SetMaxIdleConns : DBHandle → Int → σ → σ
  SetMaxOpenConns : DBHandle → Int → σ → σ
  SetConnMaxIdleTime : DBHandle → Int → σ → σ
  SetConnMaxLifetime : DBHandle → Int → σ → σ
  Close : DBHandle → σ → Option Err × σ
  BeginTxx : DBHandle → Context → σ → (Option TxHandle × Option Err) × σ
  Commit : TxHandle → σ → Option Err × σ
  Rollback : TxHandle → σ → Option Err × σ
  QueryxContext : Target → Context → String → List Value → σ →
    (Option Rows × Option Err) × σ
  QueryRowxContext : Target → Context → String → List Value → σ → Option Row × σ
  ExecContext : Target → Context → String → List Value → σ →
    (Option Result × Option Err) × σ
  PreparexContext : Target → Context → String → σ → (Option Stmt × Option Err) × σ
  SelectContext : Target → Context → Dest → String → List Value → σ → Option Err × σ
  GetContext : Target → Context → Dest → String → List Value → σ → Option Err × σ
  Rebind : Target → String → String
  NamedExecContext : Target → Context → String → Value → σ →
    (Option Result × Option Err) × σ

/-- How a call ends: it returns a value, it panics on a nil pointer dereference, or
the process is terminated with an exit status. -/
inductive Outcome (α : Type) where
  | ret (a : α)
  | nilDeref
  | exited (code : Nat)
  deriving DecidableEq, Repr

/-- Apply a function to the returned value, if the call returned. -/
def Outcome.map {α β : Type} (f : α → β) : Outcome α → Outcome β
  | .ret a => .ret (f a)
  | .nilDeref => .nilDeref
  | .exited c => .exited c

/-- The result of running a piece of code: how it ended, the world it left and the
effects it had, in order. -/
structure Step (σ α : Type) where
  out : Outcome α
  world : σ
  events : List Event
  deriving DecidableEq, Repr

/-- A piece of code: from the world it starts in to its `Step`. -/
def Prog (σ α : Type) : Type := σ → Step σ α

namespace Prog

variable {σ α β : Type}

/-- Run a program from a world. -/
def run (p : Prog σ α) (w : σ) : Step σ α := p w

/-- Go `return a`. -/
def ret (a : α) : Prog σ α := fun w => ⟨.ret a, w, []⟩

/-- Sequencing: the second program runs only if the first one returned. -/
def bind (p : Prog σ α) (f : α → Prog σ β) : Prog σ β := fun w =>
  let s := p w
  match s.out with
  | .ret a =>
    let r := f a s.world
    ⟨r.out, r.world, s.events ++ r.events⟩
  | .nilDeref => ⟨.nilDeref, s.world, s.events⟩
  | .exited c => ⟨.exited c, s.world, s.events⟩

/-- The nil pointer dereference panic: nothing reaches the library. -/
def fault : Prog σ α := fun w => ⟨.nilDeref, w, []⟩

/-- One call into the library: the effect is recorded and the library's response is
the returned value and the next world. -/
def call (e : Event) (f : σ → α × σ) : Prog σ α := fun w =>
  ⟨.ret (f w).1, (f w).2, [e]⟩

/-- One call into the library that returns nothing. -/
def callUnit (e : Event) (f : σ → σ) : Prog σ Unit := fun w => ⟨.ret (), f w, [e]⟩

/-- A method call through a `*sqlx.DB`: a nil pointer panics. -/
def onDB (db : Option DBHandle) (k : DBHandle → Prog σ α) : Prog σ α :=
  match db with
  | none => fault
  | some h => k h

/-- A method call through a `*sqlx.Tx`: a nil pointer panics. -/
def onTx (tx : Option TxHandle) (k : TxHandle → Prog σ α) : Prog σ α :=
  match tx with
  | none => fault
  | some h => k h

/-- Standard logger, `log.Println`. -/
def logPrintln (msg : String) : Prog σ Unit := fun w => ⟨.ret (), w, [.logPrintln msg]⟩

/-- Standard logger, `log.Fatalf`: the line is written and the process exits with
status 1, so nothing after it runs. -/
def logFatalf (msg : String) : Prog σ Unit := fun w => ⟨.exited 1, w, [.logFatalf msg]⟩

instance : Monad (Prog σ) where
  pure := ret
  bind := bind

end Prog

/-! ## The library entry points the repository calls -/

namespace Lib

variable {σ : Type}

/-- Library call `sqlx.Connect(driverName, dataSourceName)`. -/
def Connect (d : Driver σ) (driver dsn : String) : Prog σ (Option DBHandle × Option Err) :=
  Prog.call (.connect driver dsn) (d.Connect driver dsn)

/-- Library call `db.SetMaxIdleConns(n)`. -/
def SetMaxIdleConns (d : Driver σ) (db : Option DBHandle) (n : Int) : Prog σ Unit :=
  Prog.onDB db fun h => Prog.callUnit (.setMaxIdleConns h n) (d.SetMaxIdleConns h n)

/-- Library call `db.SetMaxOpenConns(n)`. -/
def SetMaxOpenConns (d : Driver σ) (db : Option DBHandle) (n : Int) : Prog σ Unit :=
  Prog.onDB db fun h => Prog.callUnit (.setMaxOpenConns h n) (d.SetMaxOpenConns h n)

/-- Library call `db.SetConnMaxIdleTime(d)`. -/
def SetConnMaxIdleTime (d : Driver σ) (db : Option DBHandle) (n : Int) : Prog σ Unit :=
  Prog.onDB db fun h => Prog.callUnit (.setConnMaxIdleTime h n) (d.SetConnMaxIdleTime h n)

/-- Library call `db.SetConnMaxLifetime(d)`. -/
def SetConnMaxLifetime (d : Driver σ) (db : Option DBHandle) (n : Int) : Prog σ Unit :=
  Prog.onDB db fun h => Prog.callUnit (.setConnMaxLifetime h n) (d.SetConnMaxLifetime h n)

/-- Library call `db.Close()`. -/
def Close (d : Driver σ) (db : Option DBHandle) : Prog σ (Option Err) :=
  Prog.onDB db fun h => Prog.call (.close h) (d.Close h)

/-- Library call `db.BeginTxx(ctx, nil)`. -/
def BeginTxx (d : Driver σ) (db : Option DBHandle) (ctx : Context) :
    Prog σ (Option TxHandle × Option Err) :=
  Prog.onDB db fun h => Prog.call (.beginTxx h ctx) (d.BeginTxx h ctx)

/-- Library call `tx.Commit()`. -/
def Commit (d : Driver σ) (tx : Option TxHandle) : Prog σ (Option Err) :=
  Prog.onTx tx fun h => Prog.call (.commit h) (d.Commit h)

/-- Library call `tx.Rollback()`. -/
def Rollback (d : Driver σ) (tx : Option TxHandle) : Prog σ (Option Err) :=
  Prog.onTx tx fun h => Prog.call (.rollback h) (d.Rollback h)

/-- Library call `QueryxContext(ctx, query, args...)` on a receiver that is not nil. -/
def QueryxContext (d : Driver σ) (r : Target) (ctx : Context) (query : String)
    (args : List Value) : Prog σ (Option Rows × Option Err) :=
  Prog.call (.queryxContext r ctx query args) (d.QueryxContext r ctx query args)

/-- Library call `QueryRowxContext(ctx, query, args...)` on a receiver that is not nil. -/
def QueryRowxContext (d : Driver σ) (r : Target) (ctx : Context) (query : String)
    (args : List Value) : Prog σ (Option Row) :=
  Prog.call (.queryRowxContext r ctx query args) (d.QueryRowxContext r ctx query args)

/-- Library call `ExecContext(ctx, query, args...)` on a receiver that is not nil. -/
def ExecContext (d : Driver σ) (r : Target) (ctx : Context) (query : String)
    (args : List Value) : Prog σ (Option Result × Option Err) :=
  Prog.call (.execContext r ctx query args) (d.ExecContext r ctx query args)

/-- Library call `PreparexContext(ctx, query)` on a receiver that is not nil. -/
def PreparexContext (d : Driver σ) (r : Target) (ctx : Context) (query : String) :
    Prog σ (Option Stmt × Option Err) :=
  Prog.call (.preparexContext r ctx query) (d.PreparexContext r ctx query)

/-- Library call `SelectContext(ctx, dest, query, args...)` on a receiver that is not nil. -/
def SelectContext (d : Driver σ) (r : Target) (ctx : Context) (dest : Dest) (query : String)
    (args : List Value) : Prog σ (Option Err) :=
  Prog.call (.selectContext r ctx dest query args) (d.SelectContext r ctx dest query args)

/-- Library call `GetContext(ctx, dest, query, args...)` on a receiver that is not nil. -/
def GetContext (d : Driver σ) (r : Target) (ctx : Context) (dest : Dest) (query : String)
    (args : List Value) : Prog σ (Option Err) :=
  Prog.call (.getContext r ctx dest query args) (d.GetContext r ctx dest query args)

/-- Library call `Rebind(query)` on a receiver that is not nil: the world is not touched. -/
def Rebind (d : Driver σ) (r : Target) (query : String) : Prog σ String :=
  Prog.call (.rebind r query) (fun w => (d.Rebind r query, w))

/-- Library call `NamedExecContext(ctx, query, arg)` on a receiver that is not nil. -/
def NamedExecContext (d : Driver σ) (r : Target) (ctx : Context) (query : String)
    (arg : Value) : Prog σ (Option Result × Option Err) :=
  Prog.call (.namedExecContext r ctx query arg) (d.NamedExecContext r ctx query arg)

end Lib

/-! ## single_intruction.go -/

/-- single_intruction.go: `SingleInstruction`, holding `db *sqlx.DB`. -/
structure SingleInstruction where
  db : Option DBHandle
  deriving DecidableEq, Repr

/-- single_intruction.go: `NewSingleInstruction`. -/
def NewSingleInstruction (db : Option DBHandle) : SingleInstruction := ⟨db⟩

namespace SingleInstruction

variable {σ : Type}

/-- single_intruction.go: `return s.db.QueryxContext(ctx, query, args...)`. -/
def Query (d : Driver σ) (s : SingleInstruction) (ctx : Context) (query : String)
    (args : List Value) : Prog σ (Option Rows × Option Err) :=
  Prog.onDB s.db fun h => Lib.QueryxContext d (.db h) ctx query args

/-- single_intruction.go: `return s.db.QueryRowxContext(ctx, query, args...)`. -/
def QueryRow (d : Driver σ) (s : SingleInstruction) (ctx : Context) (query : String)
    (args : List Value) : Prog σ (Option Row) :=
  Prog.onDB s.db fun h => Lib.QueryRowxContext d (.db h) ctx query args

/-- single_intruction.go: `return s.db.ExecContext(ctx, query, args...)`. -/
def Exec (d : Driver σ) (s : SingleInstruction) (ctx : Context) (query : String)
    (args : List Value) : Prog σ (Option Result × Option Err) :=
  Prog.onDB s.db fun h => Lib.ExecContext d (.db h) ctx query args

/-- single_intruction.go: `return s.db.PreparexContext(ctx, query)`. -/
def Prepare (d : Driver σ) (s : SingleInstruction) (ctx : Context) (query : String) :
    Prog σ (Option Stmt × Option Err) :=
  Prog.onDB s.db fun h => Lib.PreparexContext d (.db h) ctx query

/-- single_intruction.go: `return s.db.SelectContext(ctx, dest, query, args...)`. -/
def Select (d : Driver σ) (s : SingleInstruction) (ctx : Context) (dest : Dest)
    (query : String) (args : List Value) : Prog σ (Option Err) :=
  Prog.onDB s.db fun h => Lib.SelectContext d (.db h) ctx dest query args

/-- single_intruction.go: `return s.db.GetContext(ctx, dest, query, args...)`. -/
def Get (d : Driver σ) (s : SingleInstruction) (ctx : Context) (dest : Dest)
    (query : String) (args : List Value) : Prog σ (Option Err) :=
  Prog.onDB s.db fun h => Lib.GetContext d (.db h) ctx dest query args

/-- single_intruction.go: `return s.db.Rebind(query)`. -/
def Rebind (d : Driver σ) (s : SingleInstruction) (query : String) : Prog σ String :=
  Prog.onDB s.db fun h => Lib.Rebind d (.db h) query

/-- single_intruction.go: `return s.db.NamedExecContext(ctx, query, arg)`. -/
def NamedExec (d : Driver σ) (s : SingleInstruction) (ctx : Context) (query : String)
    (arg : Value) : Prog σ (Option Result × Option Err) :=
  Prog.onDB s.db fun h => Lib.NamedExecContext d (.db h) ctx query arg

end SingleInstruction

/-! ## multi_instruction.go -/

/-- multi_instruction.go: `MultiInstruction`, holding `db *sqlx.DB` and `tx *sqlx.Tx`. -/
structure MultiInstruction where
  db : Option DBHandle
  tx : Option TxHandle
  deriving DecidableEq, Repr

/-- multi_instruction.go: `NewMultiInstruction`: the handle starts nil. -/
def NewMultiInstruction (db : Option DBHandle) : MultiInstruction := ⟨db, none⟩

namespace MultiInstruction

variable {σ : Type}

/-- multi_instruction.go: `Begin`.  The receiver after the call is returned next to
the error. -/
def Begin (d : Driver σ) (t : MultiInstruction) (ctx : Context) :
    Prog σ (Option Err × MultiInstruction) := do
  let (tx, err) ← Lib.BeginTxx d t.db ctx
  match err with
  | some e => pure (some e, t)
  | none => pure (none, ⟨t.db, tx⟩)

/-- multi_instruction.go: `Commit`.  The context is not used. -/
def Commit (d : Driver σ) (t : MultiInstruction) (_ctx : Context) :
    Prog σ (Option Err × MultiInstruction) := do
  let err ← Lib.Commit d t.tx
  match err with
  | some e => pure (some e, t)
  | none => pure (none, t)

/-- multi_instruction.go: `Rollback`.  The context is not used. -/
def Rollback (d : Driver σ) (t : MultiInstruction) (_ctx : Context) :
    Prog σ (Option Err × MultiInstruction) := do
  let err ← Lib.Rollback d t.tx
  match err with
  | some e => pure (some e, t)
  | none => pure (none, t)

/-- multi_instruction.go: `return t.tx.QueryxContext(ctx, query, args...)`. -/
def Query (d : Driver σ) (t : MultiInstruction) (ctx : Context) (query : String)
    (args : List Value) : Prog σ (Option Rows × Option Err) :=
  Prog.onTx t.tx fun h => Lib.QueryxContext d (.tx h) ctx query args

/-- multi_instruction.go: `return t.tx.QueryRowxContext(ctx, query, args...)`. -/
def QueryRow (d : Driver σ) (t : MultiInstruction) (ctx : Context) (query : String)
    (args : List Value) : Prog σ (Option Row) :=
  Prog.onTx t.tx fun h => Lib.QueryRowxContext d (.tx h) ctx query args

/-- multi_instruction.go: `return t.tx.ExecContext(ctx, query, args...)`. -/
def Exec (d : Driver σ) (t : MultiInstruction) (ctx : Context) (query : String)
    (args : List Value) : Prog σ (Option Result × Option Err) :=
  Prog.onTx t.tx fun h => Lib.ExecContext d (.tx h) ctx query args

/-- multi_instruction.go: `return t.tx.PreparexContext(ctx, query)`. -/
def Prepare (d : Driver σ) (t : MultiInstruction) (ctx : Context) (query : String) :
    Prog σ (Option Stmt × Option Err) :=
  Prog.onTx t.tx fun h => Lib.PreparexContext d (.tx h) ctx query

/-- multi_instruction.go: `return t.tx.SelectContext(ctx, dest, query, args...)`. -/
def Select (d : Driver σ) (t : MultiInstruction) (ctx : Context) (dest : Dest)
    (query : String) (args : List Value) : Prog σ (Option Err) :=
  Prog.onTx t.tx fun h => Lib.SelectContext d (.tx h) ctx dest query args

/-- multi_instruction.go: `return t.tx.GetContext(ctx, dest, query, args...)`. -/
def Get (d : Driver σ) (t : MultiInstruction) (ctx : Context) (dest : Dest)
    (query : String) (args : List Value) : Prog σ (Option Err) :=
  Prog.onTx t.tx fun h => Lib.GetContext d (.tx h) ctx dest query args

/-- multi_instruction.go: `CommitAndClose`: on success the handle is set to nil.  The
context is not used. -/
def CommitAndClose (d : Driver σ) (t : MultiInstruction) (_ctx : Context) :
    Prog σ (Option Err × MultiInstruction) := do
  let err ← Lib.Commit d t.tx
  match err with
  | some e => pure (some e, t)
  | none => pure (none, ⟨t.db, none⟩)

/-- multi_instruction.go: `RollbackAndClose`: on success the handle is set to nil.  The
context is not used. -/
def RollbackAndClose (d : Driver σ) (t : MultiInstruction) (_ctx : Context) :
    Prog σ (Option Err × MultiInstruction) := do
  let err ← Lib.Rollback d t.tx
  match err with
  | some e => pure (some e, t)
  | none => pure (none, ⟨t.db, none⟩)

/-- multi_instruction.go: `return t.tx.Rebind(query)`. -/
def Rebind (d : Driver σ) (t : MultiInstruction) (query : String) : Prog σ String :=
  Prog.onTx t.tx fun h => Lib.Rebind d (.tx h) query

/-- multi_instruction.go: `return t.tx.NamedExecContext(ctx, query, arg)`. -/
def NamedExec (d : Driver σ) (t : MultiInstruction) (ctx : Context) (query : String)
    (arg : Value) : Prog σ (Option Result × Option Err) :=
  Prog.onTx t.tx fun h => Lib.NamedExecContext d (.tx h) ctx query arg

end MultiInstruction

/-! ## connection_manager.go -/

/-- connection_manager.go: `SQLServerConnectionManager`, holding `db *sqlx.DB`. -/
structure SQLServerConnectionManager where
  db : Option DBHandle
  deriving DecidableEq, Repr

/-- connection_manager.go: `NewConnectionManager`.  On a connect error the code calls
`log.Fatalf` and then has `return nil, err`; otherwise each pool setter is called
when its field is not zero, in the order of the source. -/
def NewConnectionManager {σ : Type} (d : Driver σ) (cfg : DatabaseConfig) :
    Prog σ (Option SQLServerConnectionManager × Option Err) := do
  let (db, err) ← Lib.Connect d cfg.Driver cfg.DSN
  match err with
  | some e =>
    Prog.logFatalf ("failed to connect to sql server: " ++ e)
    pure (none, some e)
  | none =>
    if cfg.MaxIdleConnections ≠ 0 then
      Lib.SetMaxIdleConns d db cfg.MaxIdleConnections
    if cfg.MaxOpenConnections ≠ 0 then
      Lib.SetMaxOpenConns d db cfg.MaxOpenConnections
    if cfg.MaxIdleDuration ≠ 0 then
      Lib.SetConnMaxIdleTime d db cfg.MaxIdleDuration
    if cfg.MaxLifeTimeDuration ≠ 0 then
      Lib.SetConnMaxLifetime d db cfg.MaxLifeTimeDuration
    Prog.logPrintln "connected to sql server"
    pure (some ⟨db⟩, none)

namespace SQLServerConnectionManager

variable {σ : Type}

/-- connection_manager.go: `Close`. -/
def Close (d : Driver σ) (cm : SQLServerConnectionManager) : Prog σ (Option Err) := do
  Prog.logPrintln "closing sql server connection"
  Lib.Close d cm.db

/-- connection_manager.go: `GetQuery`. -/
def GetQuery (cm : SQLServerConnectionManager) : SingleInstruction :=
  NewSingleInstruction cm.db

/-- connection_manager.go: `GetTransaction`. -/
def GetTransaction (cm : SQLServerConnectionManager) : MultiInstruction :=
  NewMultiInstruction cm.db

end SQLServerConnectionManager

/-! ## Pool limits -/

/-- The four pool settings `NewConnectionManager` can apply. -/
inductive Setting where
  | maxIdleConns
  | maxOpenConns
  | connMaxIdleTime
  | connMaxLifetime
  deriving DecidableEq, Repr

/-- The field of the config that carries a setting. -/
def DatabaseConfig.field (cfg : DatabaseConfig) : Setting → Int
  | .maxIdleConns => cfg.MaxIdleConnections
  | .maxOpenConns => cfg.MaxOpenConnections
  | .connMaxIdleTime => cfg.MaxIdleDuration
  | .connMaxLifetime => cfg.MaxLifeTimeDuration

/-- The setter call of a setting, as an effect. -/
def Event.set : Setting → DBHandle → Int → Event
  | .maxIdleConns => .setMaxIdleConns
  | .maxOpenConns => .setMaxOpenConns
  | .connMaxIdleTime => .setConnMaxIdleTime
  | .connMaxLifetime => .setConnMaxLifetime

/-! ## What the client library does with the calls

Three claims depend on what the library does with a call, not only on the call being
made: what the pool reports after its setters ran, what a finished transaction answers,
and how placeholders are rewritten.  sqlx leaves the first two to the Go standard
library (`database/sql`, whose `*sql.DB` and `*sql.Tx` it embeds) and does the third
itself (`sqlx.Rebind`).  None of this is code of the repository; it is written down
here after the libraries, and a `Driver` is tied to it by an explicit condition. -/

/-- database/sql, the fields of `sql.DB` behind the four pool settings.  `maxIdleCount`
zero means the default of 2 and negative means none; `maxOpen` zero means unlimited. -/
structure SqlPool where
  maxIdleCount : Int
  maxOpen : Int
  maxIdleTime : Int
  maxLifetime : Int
  deriving DecidableEq, Repr

namespace SqlPool

/-- database/sql: the pool of a `sql.DB` that was just opened, every field zero. -/
def fresh : SqlPool := ⟨0, 0, 0, 0⟩

/-- database/sql: `defaultMaxIdleConns`. -/
def defaultMaxIdleConns : Int := 2

/-- database/sql: `maxIdleConnsLocked`, the idle limit in force. -/
def maxIdleConnsLocked (p : SqlPool) : Int :=
  if p.maxIdleCount = 0 then defaultMaxIdleConns
  else if p.maxIdleCount < 0 then 0
  else p.maxIdleCount

/-- database/sql: `SetMaxIdleConns`.  A value that is not positive means no idle
connections, and the idle limit is lowered to a positive open limit it exceeds. -/
def SetMaxIdleConns (p : SqlPool) (n : Int) : SqlPool :=
  let p1 : SqlPool := ⟨if n > 0 then n else -1, p.maxOpen, p.maxIdleTime, p.maxLifetime⟩
  if p1.maxOpen > 0 ∧ p1.maxIdleConnsLocked > p1.maxOpen then
    ⟨p1.maxOpen, p1.maxOpen, p1.maxIdleTime, p1.maxLifetime⟩
  else p1

/-- database/sql: `SetMaxOpenConns`.  A negative value is stored as zero (unlimited),
and an idle limit above a positive open limit is set again, to the value given. -/
def SetMaxOpenConns (p : SqlPool) (n : Int) : SqlPool :=
  let p1 : SqlPool := ⟨p.maxIdleCount, if n < 0 then 0 else n, p.maxIdleTime, p.maxLifetime⟩
  if p1.maxOpen > 0 ∧ p1.maxIdleConnsLocked > p1.maxOpen then p1.SetMaxIdleConns n
  else p1

/-- database/sql: `SetConnMaxIdleTime`.  A negative duration is stored as zero. -/
def SetConnMaxIdleTime (p : SqlPool) (d : Int) : SqlPool :=
  ⟨p.maxIdleCount, p.maxOpen, if d < 0 then 0 else d, p.maxLifetime⟩

/-- database/sql: `SetConnMaxLifetime`.  A negative duration is stored as zero. -/
def SetConnMaxLifetime (p : SqlPool) (d : Int) : SqlPool :=
  ⟨p.maxIdleCount, p.maxOpen, p.maxIdleTime, if d < 0 then 0 else d⟩

/-- The pool after the setters of the config fields that are not zero have run on it,
in the order `NewConnectionManager` calls them. -/
def configured (cfg : DatabaseConfig) (p : SqlPool) : SqlPool :=
  let p1 := if cfg.MaxIdleConnections ≠ 0 then p.SetMaxIdleConns cfg.MaxIdleConnections else p
  let p2 := if cfg.MaxOpenConnections ≠ 0 then p1.SetMaxOpenConns cfg.MaxOpenConnections else p1
  let p3 := if cfg.MaxIdleDuration ≠ 0 then p2.SetConnMaxIdleTime cfg.MaxIdleDuration else p2
  if cfg.MaxLifeTimeDuration ≠ 0 then p3.SetConnMaxLifetime cfg.MaxLifeTimeDuration else p3

/-- The idle count database/sql holds after the idle and open setters of the config
fields that are not zero have run on a fresh pool: the idle setter stores a positive
value and -1 for a negative one, and the open setter lowers it to a positive open limit
below the idle limit in force. -/
def idleCountAfter (i o : Int) : Int :=
  let c : Int := if i = 0 then 0 else if 0 < i then i else -1
  if 0 < o ∧ o < (SqlPool.mk c 0 0 0).maxIdleConnsLocked then o else c

end SqlPool

/-- The pool of a library handle is database/sql's: `pool` reads the pool of a handle off
the world, a successful connect leaves the pool of the new handle fresh, and each
setter acts on the pool as database/sql's setter of that name. -/
structure UsesSqlPool {σ : Type} (d : Driver σ) (pool : DBHandle → σ → SqlPool) : Prop where
  connect_fresh : ∀ driver dsn w h w1,
    d.Connect driver dsn w = ((some h, none), w1) → pool h w1 = SqlPool.fresh
  setMaxIdleConns : ∀ h n w, pool h (d.SetMaxIdleConns h n w) = (pool h w).SetMaxIdleConns n
  setMaxOpenConns : ∀ h n w, pool h (d.SetMaxOpenConns h n w) = (pool h w).SetMaxOpenConns n
  setConnMaxIdleTime : ∀ h n w,
    pool h (d.SetConnMaxIdleTime h n w) = (pool h w).SetConnMaxIdleTime n
  setConnMaxLifetime : ∀ h n w,
    pool h (d.SetConnMaxLifetime h n w) = (pool h w).SetConnMaxLifetime n

/-- database/sql: `ErrTxDone`, returned by any operation on a transaction that has
already been committed or rolled back. -/
def ErrTxDone : Err := "sql: transaction has already been committed or rolled back"

/-- The transactions of the library are database/sql's: `done` reads off the world
whether a transaction is finished, a commit or rollback that returns nil leaves the
transaction finished, and a commit or rollback of a finished transaction returns
`ErrTxDone`. -/
structure UsesSqlTx {σ : Type} (d : Driver σ) (done : TxHandle → σ → Bool) : Prop where
  commit_ok : ∀ h w, (d.Commit h w).1 = none → done h (d.Commit h w).2 = true
  rollback_ok : ∀ h w, (d.Rollback h w).1 = none → done h (d.Rollback h w).2 = true
  commit_done : ∀ h w, done h w = true → (d.Commit h w).1 = some ErrTxDone
  rollback_done : ∀ h w, done h w = true → (d.Rollback h w).1 = some ErrTxDone

/-- sqlx: the bind types `UNKNOWN`, `QUESTION`, `DOLLAR`, `NAMED` and `AT`; the driver
name of a handle fixes one of them. -/
inductive BindType where
  | UNKNOWN
  | QUESTION
  | DOLLAR
  | NAMED
  | AT
  deriving DecidableEq, Repr

namespace Sqlx

/-- sqlx `Rebind`: what is written before the number of a placeholder, `$`, `:arg` or
`@p`. -/
def mark : BindType → List Char
  | .DOLLAR => ['$']
  | .NAMED => [':', 'a', 'r', 'g']
  | .AT => ['@', 'p']
  | _ => []

/-- sqlx `Rebind`, the loop: each `?` becomes the mark of the dialect followed by its
number in decimal, counted from `j + 1`; every other character is copied.  The library
works on bytes; `?` is one byte and part of no longer character, so working on
characters gives the same text. -/
def rebindFrom (bt : BindType) : Nat → List Char → List Char
  | _, [] => []
  | j, c :: cs =>
    if c = '?' then mark bt ++ Nat.toDigits 10 (j + 1) ++ rebindFrom bt (j + 1) cs
    else c :: rebindFrom bt j cs

/-- sqlx `Rebind(bindType, query)`: the query is returned as it is for `QUESTION` and
`UNKNOWN`, and with every `?` numbered otherwise. -/
def Rebind (bt : BindType) (query : String) : String :=
  match bt with
  | .QUESTION => query
  | .UNKNOWN => query
  | _ => String.mk (rebindFrom bt 0 query.toList)

end Sqlx

/-! ## An in-memory client library, for evaluating the programs on concrete inputs -/

/-- World of the in-memory library: how many transactions were handed out, which are
finished, and its single pool. -/
structure SimWorld where
  opened : Nat
  finished : List TxHandle
  pool : SqlPool
  deriving DecidableEq, Repr

/-- A fresh world: nothing open, a fresh pool. -/
def SimWorld.init : SimWorld := ⟨0, [], SqlPool.fresh⟩

/-- Error of the in-memory library for a transaction that is already finished. -/
def simErrTxDone : Err := ErrTxDone

/-- The in-memory library.  Connecting fails on an empty data source name; beginning
fails on a context that is done; a transaction can be finished once; the pool is
database/sql's and the placeholders are those of a `DOLLAR` dialect. -/
def simDriver : Driver SimWorld where
  Connect := fun _ dsn w =>
    if dsn = "" then ((none, some "missing data source name"), w)
    else ((some ⟨1⟩, none), ⟨w.opened, w.finished, SqlPool.fresh⟩)
  SetMaxIdleConns := fun _ n w => ⟨w.opened, w.finished, w.pool.SetMaxIdleConns n⟩
  SetMaxOpenConns := fun _ n w => ⟨w.opened, w.finished, w.pool.SetMaxOpenConns n⟩
  SetConnMaxIdleTime := fun _ n w => ⟨w.opened, w.finished, w.pool.SetConnMaxIdleTime n⟩
  SetConnMaxLifetime := fun _ n w => ⟨w.opened, w.finished, w.pool.SetConnMaxLifetime n⟩
  Close := fun _ w => (none, w)
  BeginTxx := fun _ ctx w =>
    if ctx.done then ((none, some "context canceled"), w)
    else ((some ⟨w.opened + 1⟩, none), ⟨w.opened + 1, w.finished, w.pool⟩)
  Commit := fun tx w =>
    if tx ∈ w.finished then (some simErrTxDone, w)
    else (none, ⟨w.opened, tx :: w.finished, w.pool⟩)
  Rollback := fun tx w =>
    if tx ∈ w.finished then (some simErrTxDone, w)
    else (none, ⟨w.opened, tx :: w.finished, w.pool⟩)
  QueryxContext := fun _ _ _ _ w => ((some ⟨0⟩, none), w)
  QueryRowxContext := fun _ _ _ _ w => (some ⟨0⟩, w)
  ExecContext := fun _ _ _ _ w => ((some ⟨0⟩, none), w)
  PreparexContext := fun _ _ _ w => ((some ⟨0⟩, none), w)
  SelectContext := fun _ _ _ _ _ w => (none, w)
  GetContext := fun _ _ _ _ _ w => (none, w)
  Rebind := fun _ q => Sqlx.Rebind .DOLLAR q
  NamedExecContext := fun _ _ _ _ w => ((some ⟨0⟩, none), w)

/-- The pool of the in-memory library. -/
def simPool : DBHandle → SimWorld → SqlPool := fun _ w => w.pool

/-- Whether a transaction of the in-memory library is finished. -/
def simTxDone : TxHandle → SimWorld → Bool := fun h w => decide (h ∈ w.finished)

/-- A config naming a reachable database and asking for at most 10 open connections. -/
def cfgOpen10 : DatabaseConfig := ⟨"postgres", "host=db", 0, 10, 0, 0⟩

/-- A config asking for 5 idle and 10 open connections and two positive durations. -/
def cfgIdle5Open10 : DatabaseConfig := ⟨"postgres", "host=db", 5, 10, 300, 3600⟩

/-- A config asking for more idle connections (5) than open connections (3). -/
def cfgIdle5Open3 : DatabaseConfig := ⟨"postgres", "host=db", 5, 3, 0, 0⟩

/-- A config with a negative number of open connections and negative durations. -/
def cfgNegative : DatabaseConfig := ⟨"postgres", "host=db", 5, -5, -1, -1⟩

/-- A config leaving the idle connections at zero and asking for one open connection. -/
def cfgOpen1 : DatabaseConfig := ⟨"postgres", "host=db", 0, 1, 0, 0⟩

/-- A config with pool limits whose data source name is empty. -/
def cfgNoDSN : DatabaseConfig := ⟨"postgres", "", 5, 10, 0, 0⟩

/-- A context that is neither cancelled nor expired. -/
def ctxLive : Context := ⟨1, false⟩

/-- A context that is cancelled. -/
def ctxDone : Context := ⟨2, true⟩

/-! ## Running programs: unfolding lemmas -/

namespace Prog

variable {σ α β : Type}

@[simp] theorem run_pure (a : α) (w : σ) :
    (pure a : Prog σ α).run w = ⟨.ret a, w, []⟩ := rfl

@[simp] theorem run_ret (a : α) (w : σ) :
    (Prog.ret a : Prog σ α).run w = ⟨.ret a, w, []⟩ := rfl

@[simp] theorem run_fault (w : σ) : (Prog.fault : Prog σ α).run w = ⟨.nilDeref, w, []⟩ := rfl

@[simp] theorem run_call (e : Event) (f : σ → α × σ) (w : σ) :
    (Prog.call e f).run w = ⟨.ret (f w).1, (f w).2, [e]⟩ := rfl

@[simp] theorem run_callUnit (e : Event) (f : σ → σ) (w : σ) :
    (Prog.callUnit e f).run w = ⟨.ret (), f w, [e]⟩ := rfl

@[simp] theorem run_logPrintln (msg : String) (w : σ) :
    (Prog.logPrintln msg : Prog σ Unit).run w = ⟨.ret (), w, [.logPrintln msg]⟩ := rfl

@[simp] theorem run_logFatalf (msg : String) (w : σ) :
    (Prog.logFatalf msg : Prog σ Unit).run w = ⟨.exited 1, w, [.logFatalf msg]⟩ := rfl

@[simp] theorem onDB_none (k : DBHandle → Prog σ α) : Prog.onDB none k = Prog.fault := rfl

@[simp] theorem onDB_some (h : DBHandle) (k : DBHandle → Prog σ α) :
    Prog.onDB (some h) k = k h := rfl

@[simp] theorem onTx_none (k : TxHandle → Prog σ α) : Prog.onTx none k = Prog.fault := rfl

@[simp] theorem onTx_some (h : TxHandle) (k : TxHandle → Prog σ α) :
    Prog.onTx (some h) k = k h := rfl

theorem run_bind (p : Prog σ α) (f : α → Prog σ β) (w : σ) :
    (p >>= f).run w =
      match (p.run w).out with
      | .ret a =>
        ⟨((f a).run (p.run w).world).out, ((f a).run (p.run w).world).world,
          (p.run w).events ++ ((f a).run (p.run w).world).events⟩
      | .nilDeref => ⟨.nilDeref, (p.run w).world, (p.run w).events⟩
      | .exited c => ⟨.exited c, (p.run w).world, (p.run w).events⟩ := rfl

/-- Sequencing after a program that returned. -/
theorem run_bind_ret (p : Prog σ α) (f : α → Prog σ β) (w w1 : σ) (a : α)
    (es : List Event) (h : p.run w = ⟨.ret a, w1, es⟩) :
    (p >>= f).run w =
      ⟨((f a).run w1).out, ((f a).run w1).world, es ++ ((f a).run w1).events⟩ := by
  rw [run_bind, h]

/-- Sequencing after a program that panicked. -/
theorem run_bind_nilDeref (p : Prog σ α) (f : α → Prog σ β) (w w1 : σ)
    (es : List Event) (h : p.run w = ⟨.nilDeref, w1, es⟩) :
    (p >>= f).run w = ⟨.nilDeref, w1, es⟩ := by
  rw [run_bind, h]

/-- Sequencing after a program that ended the process. -/
theorem run_bind_exited (p : Prog σ α) (f : α → Prog σ β) (w w1 : σ) (c : Nat)
    (es : List Event) (h : p.run w = ⟨.exited c, w1, es⟩) :
    (p >>= f).run w = ⟨.exited c, w1, es⟩ := by
  rw [run_bind, h]

end Prog

/-! ## Connection manager -/

/-- The pool of the in-memory library is database/sql's. -/
theorem simPool_uses : UsesSqlPool simDriver simPool := by
  constructor
  · intro driver dsn w h w1 hc
    by_cases hd : dsn = ""
    · simp [simDriver, hd] at hc
    · simp [simDriver, hd] at hc
      rw [← hc.2]
      rfl
  · intro h n w
    rfl
  · intro h n w
    rfl
  · intro h n w
    rfl
  · intro h n w
    rfl

/-- C3 (as stated, refuted): on the in-memory library, whose pool is database/sql's, the
connect succeeds and the pool does not report the non-zero config values.  With 5 idle
and 3 open connections asked for, both setters are called and the pool reports 3 idle
connections; with -5 open connections and durations of -1 it reports 0 for each; with
the idle field zero and one open connection asked for, no idle setter is called and
the idle limit is still lowered from its default 2 to 1. -/
theorem NewConnectionManager_pool_reports_counterexample :
    ((NewConnectionManager simDriver cfgIdle5Open3).run SimWorld.init).out
      = .ret (some ⟨some ⟨1⟩⟩, none) ∧
    ((NewConnectionManager simDriver cfgIdle5Open3).run SimWorld.init).events
      = [.connect "postgres" "host=db", .setMaxIdleConns ⟨1⟩ 5, .setMaxOpenConns ⟨1⟩ 3,
          .logPrintln "connected to sql server"] ∧
    (simPool ⟨1⟩ ((NewConnectionManager simDriver cfgIdle5Open3).run
      SimWorld.init).world).maxIdleConnsLocked = 3 ∧
    (simPool ⟨1⟩ ((NewConnectionManager simDriver cfgIdle5Open3).run
      SimWorld.init).world).maxIdleConnsLocked ≠ cfgIdle5Open3.MaxIdleConnections ∧
    (simPool ⟨1⟩ ((NewConnectionManager simDriver cfgNegative).run SimWorld.init).world).maxOpen
      ≠ cfgNegative.MaxOpenConnections ∧
    (simPool ⟨1⟩ ((NewConnectionManager simDriver cfgNegative).run SimWorld.init).world).maxOpen
      = 0 ∧
    (simPool ⟨1⟩ ((NewConnectionManager simDriver cfgNegative).run
      SimWorld.init).world).maxIdleTime = 0 ∧
    (simPool ⟨1⟩ ((NewConnectionManager simDriver cfgNegative).run
      SimWorld.init).world).maxLifetime = 0 ∧
    ((NewConnectionManager simDriver cfgOpen1).run SimWorld.init).events
      = [.connect "postgres" "host=db", .setMaxOpenConns ⟨1⟩ 1,
          .logPrintln "connected to sql server"] ∧
    (simPool ⟨1⟩ ((NewConnectionManager simDriver cfgOpen1).run
      SimWorld.init).world).maxIdleConnsLocked = 1 := by
  decide

theorem SqlPool.SetMaxIdleConns_unlimited (a c d n : Int) :
    SqlPool.SetMaxIdleConns ⟨a, 0, c, d⟩ n = ⟨if n > 0 then n else -1, 0, c, d⟩ := by
  simp [SqlPool.SetMaxIdleConns]

theorem SqlPool.SetMaxOpenConns_eq (a b c d n : Int) :
    SqlPool.SetMaxOpenConns ⟨a, b, c, d⟩ n =
      ⟨if 0 < n ∧ n < (SqlPool.mk a b c d).maxIdleConnsLocked then n else a,
        if n < 0 then 0 else n, c, d⟩ := by
  by_cases hn : 0 < n
  · have hn2 : ¬ n < 0 := by omega
    by_cases hl : n < (SqlPool.mk a b c d).maxIdleConnsLocked
    · have hl2 := hl
      simp only [SqlPool.maxIdleConnsLocked] at hl2
      simp [SqlPool.SetMaxOpenConns, SqlPool.SetMaxIdleConns, SqlPool.maxIdleConnsLocked, hn,
        hn2, hl2]
    · have hl2 := hl
      simp only [SqlPool.maxIdleConnsLocked] at hl2
      simp [SqlPool.SetMaxOpenConns, SqlPool.maxIdleConnsLocked, hn, hn2, hl, hl2]
  · by_cases hn2 : n < 0
    · simp [SqlPool.SetMaxOpenConns, hn, hn2]
    · have h0 : n = 0 := by omega
      simp [SqlPool.SetMaxOpenConns, h0]

/-- The idle limit in force for the idle count left by the two connection setters. -/
theorem SqlPool.idleCountAfter_locked (i o b c d : Int) :
    (SqlPool.mk (SqlPool.idleCountAfter i o) b c d).maxIdleConnsLocked =
      (if i = 0 then (if o = 1 then 1 else 2)
         else if i < 0 then 0
         else if 0 < o ∧ o < i then o
         else i) := by
  simp only [SqlPool.maxIdleConnsLocked, SqlPool.idleCountAfter, SqlPool.defaultMaxIdleConns]
  split_ifs <;> first | omega | simp_all

/-- The four fields of database/sql's pool once the setters of the non-zero config fields
have run on a fresh pool. -/
theorem SqlPool.configured_fresh (cfg : DatabaseConfig) :
    SqlPool.configured cfg SqlPool.fresh =
      ⟨SqlPool.idleCountAfter cfg.MaxIdleConnections cfg.MaxOpenConnections,
        if cfg.MaxOpenConnections < 0 then 0 else cfg.MaxOpenConnections,
        if cfg.MaxIdleDuration < 0 then 0 else cfg.MaxIdleDuration,
        if cfg.MaxLifeTimeDuration < 0 then 0 else cfg.MaxLifeTimeDuration⟩ := by
  obtain ⟨drv, dsn, i, o, t, l⟩ := cfg
  simp only [SqlPool.configured, SqlPool.fresh, SqlPool.idleCountAfter]
  by_cases h1 : i = 0 <;> by_cases h2 : o = 0 <;> by_cases h3 : t = 0 <;>
    by_cases h4 : l = 0 <;>
    simp [h1, h2, h3, h4, SqlPool.SetMaxIdleConns_unlimited, SqlPool.SetMaxOpenConns_eq,
      SqlPool.SetConnMaxIdleTime, SqlPool.SetConnMaxLifetime]

/-- What database/sql's pool reports once the setters of the non-zero config fields have
run on a fresh pool. -/
theorem SqlPool.configured_fresh_reports (cfg : DatabaseConfig) :
    (SqlPool.configured cfg SqlPool.fresh).maxOpen
      = (if cfg.MaxOpenConnections < 0 then 0 else cfg.MaxOpenConnections) ∧
    (SqlPool.configured cfg SqlPool.fresh).maxIdleTime
      = (if cfg.MaxIdleDuration < 0 then 0 else cfg.MaxIdleDuration) ∧
    (SqlPool.configured cfg SqlPool.fresh).maxLifetime
      = (if cfg.MaxLifeTimeDuration < 0 then 0 else cfg.MaxLifeTimeDuration) ∧
    (SqlPool.configured cfg SqlPool.fresh).maxIdleConnsLocked
      = (if cfg.MaxIdleConnections = 0 then (if cfg.MaxOpenConnections = 1 then 1 else 2)
         else if cfg.MaxIdleConnections < 0 then 0
         else if 0 < cfg.MaxOpenConnections ∧ cfg.MaxOpenConnections < cfg.MaxIdleConnections
           then cfg.MaxOpenConnections
         else cfg.MaxIdleConnections) ∧
    (0 < cfg.MaxOpenConnections →
      (SqlPool.configured cfg SqlPool.fresh).maxOpen = cfg.MaxOpenConnections) ∧
    (cfg.MaxIdleConnections ≠ 0 → cfg.MaxOpenConnections ≠ 0 →
      (((SqlPool.configured cfg SqlPool.fresh).maxIdleConnsLocked = cfg.MaxIdleConnections ∧
          (SqlPool.configured cfg SqlPool.fresh).maxOpen = cfg.MaxOpenConnections) ↔
        (0 < cfg.MaxIdleConnections ∧ cfg.MaxIdleConnections ≤ cfg.MaxOpenConnections))) := by
  rw [SqlPool.configured_fresh, SqlPool.idleCountAfter_locked]
  refine ⟨rfl, rfl, rfl, rfl, ?_, ?_⟩
  · intro h
    simp only []
    split_ifs <;> omega
  · intro hi ho
    simp only []
    split_ifs <;> omega

/-- With database/sql's pool, the pool of the handle after `NewConnectionManager` is the
fresh pool with the setters of the non-zero fields applied. -/
theorem NewConnectionManager_pool {σ : Type} (d : Driver σ) (cfg : DatabaseConfig)
    (w w1 : σ) (db : DBHandle)
    (hconn : d.Connect cfg.Driver cfg.DSN w = ((some db, none), w1))
    (pool : DBHandle → σ → SqlPool) (hP : UsesSqlPool d pool) :
    pool db ((NewConnectionManager d cfg).run w).world
      = SqlPool.configured cfg SqlPool.fresh := by
  have hrun : (Lib.Connect d cfg.Driver cfg.DSN).run w =
      ⟨.ret (some db, none), w1, [.connect cfg.Driver cfg.DSN]⟩ := by
    simp [Lib.Connect, hconn]
  unfold NewConnectionManager
  rw [Prog.run_bind_ret _ _ _ _ _ _ hrun]
  simp only []
  by_cases h1 : cfg.MaxIdleConnections = 0 <;> by_cases h2 : cfg.MaxOpenConnections = 0 <;>
  by_cases h3 : cfg.MaxIdleDuration = 0 <;> by_cases h4 : cfg.MaxLifeTimeDuration = 0 <;>
  simp [Prog.run_bind, h1, h2, h3, h4, Lib.SetMaxIdleConns, Lib.SetMaxOpenConns,
    Lib.SetConnMaxIdleTime, Lib.SetConnMaxLifetime, SqlPool.configured,
    hP.setMaxIdleConns, hP.setMaxOpenConns, hP.setConnMaxIdleTime,
    hP.setConnMaxLifetime, hP.connect_fresh _ _ _ _ _ hconn]

/-- C3 (amended): when the connect succeeds, `NewConnectionManager` returns a manager on
the connected handle and no error, and the library calls it makes are the connect, then
one setter call for each of the four settings whose config field is not zero (in source
order, with the field's value) and no setter call for a field that is zero.  On a
library whose pool is database/sql's, the pool then reports: as open limit the config's
value, with a negative value reported as 0; as each duration the config's value, with a
negative value reported as 0; as idle limit, for an idle field of zero the default 2
(lowered to 1 when one open connection is asked for), for a negative idle field 0, and
for a positive one the config's value, lowered to a positive open limit below it.  So a
positive open limit is reported as given, and with both connection counts not zero the
pool reports exactly those two if and only if the idle count is positive and at most
the open count. -/
theorem NewConnectionManager_applies_nonzero_settings {σ : Type} (d : Driver σ)
    (cfg : DatabaseConfig) (w w1 : σ) (db : DBHandle)
    (hconn : d.Connect cfg.Driver cfg.DSN w = ((some db, none), w1)) :
    ((NewConnectionManager d cfg).run w).out = .ret (some ⟨some db⟩, none) ∧
    ((NewConnectionManager d cfg).run w).events =
      [Event.connect cfg.Driver cfg.DSN]
        ++ (([Setting.maxIdleConns, .maxOpenConns, .connMaxIdleTime, .connMaxLifetime].filter
              (fun s => cfg.field s ≠ 0)).map (fun s => Event.set s db (cfg.field s)))
        ++ [Event.logPrintln "connected to sql server"] ∧
    (∀ pool : DBHandle → σ → SqlPool, UsesSqlPool d pool →
      (pool db ((NewConnectionManager d cfg).run w).world).maxOpen
        = (if cfg.MaxOpenConnections < 0 then 0 else cfg.MaxOpenConnections) ∧
      (pool db ((NewConnectionManager d cfg).run w).world).maxIdleTime
        = (if cfg.MaxIdleDuration < 0 then 0 else cfg.MaxIdleDuration) ∧
      (pool db ((NewConnectionManager d cfg).run w).world).maxLifetime
        = (if cfg.MaxLifeTimeDuration < 0 then 0 else cfg.MaxLifeTimeDuration) ∧
      (pool db ((NewConnectionManager d cfg).run w).world).maxIdleConnsLocked
        = (if cfg.MaxIdleConnections = 0 then (if cfg.MaxOpenConnections = 1 then 1 else 2)
           else if cfg.MaxIdleConnections < 0 then 0
           else if 0 < cfg.MaxOpenConnections ∧ cfg.MaxOpenConnections < cfg.MaxIdleConnections
             then cfg.MaxOpenConnections
           else cfg.MaxIdleConnections) ∧
      (0 < cfg.MaxOpenConnections →
        (pool db ((NewConnectionManager d cfg).run w).world).maxOpen
          = cfg.MaxOpenConnections) ∧
      (cfg.MaxIdleConnections ≠ 0 → cfg.MaxOpenConnections ≠ 0 →
        (((pool db ((NewConnectionManager d cfg).run w).world).maxIdleConnsLocked
              = cfg.MaxIdleConnections ∧
            (pool db ((NewConnectionManager d cfg).run w).world).maxOpen
              = cfg.MaxOpenConnections) ↔
          (0 < cfg.MaxIdleConnections ∧
            cfg.MaxIdleConnections ≤ cfg.MaxOpenConnections)))) := by
  have hrun : (Lib.Connect d cfg.Driver cfg.DSN).run w =
      ⟨.ret (some db, none), w1, [.connect cfg.Driver cfg.DSN]⟩ := by
    simp [Lib.Connect, hconn]
  refine ⟨?_, ?_, ?_⟩
  · unfold NewConnectionManager
    rw [Prog.run_bind_ret _ _ _ _ _ _ hrun]
    simp only []
    by_cases h1 : cfg.MaxIdleConnections = 0 <;> by_cases h2 : cfg.MaxOpenConnections = 0 <;>
    by_cases h3 : cfg.MaxIdleDuration = 0 <;> by_cases h4 : cfg.MaxLifeTimeDuration = 0 <;>
    simp [Prog.run_bind, h1, h2, h3, h4, Lib.SetMaxIdleConns, Lib.SetMaxOpenConns,
      Lib.SetConnMaxIdleTime, Lib.SetConnMaxLifetime]
  · unfold NewConnectionManager
    rw [Prog.run_bind_ret _ _ _ _ _ _ hrun]
    simp only []
    by_cases h1 : cfg.MaxIdleConnections = 0 <;> by_cases h2 : cfg.MaxOpenConnections = 0 <;>
    by_cases h3 : cfg.MaxIdleDuration = 0 <;> by_cases h4 : cfg.MaxLifeTimeDuration = 0 <;>
    simp [Prog.run_bind, h1, h2, h3, h4, Lib.SetMaxIdleConns, Lib.SetMaxOpenConns,
      Lib.SetConnMaxIdleTime, Lib.SetConnMaxLifetime, DatabaseConfig.field, Event.set]
  · intro pool hP
    rw [NewConnectionManager_pool d cfg w w1 db hconn pool hP]
    exact SqlPool.configured_fresh_reports cfg

/-- C3 (amended) on the in-memory library: with 5 idle and 10 open connections and two
positive durations asked for, all four setters are called and the pool reports exactly
those four values; with only 10 open connections asked for, the pool reports max-open
10 and the default of 2 idle connections. -/
theorem NewConnectionManager_applies_nonzero_settings_witness :
    simDriver.Connect cfgIdle5Open10.Driver cfgIdle5Open10.DSN SimWorld.init
        = ((some ⟨1⟩, none), SimWorld.init) ∧
    ((NewConnectionManager simDriver cfgIdle5Open10).run SimWorld.init).events =
      [Event.connect "postgres" "host=db", Event.setMaxIdleConns ⟨1⟩ 5,
        Event.setMaxOpenConns ⟨1⟩ 10, Event.setConnMaxIdleTime ⟨1⟩ 300,
        Event.setConnMaxLifetime ⟨1⟩ 3600, Event.logPrintln "connected to sql server"] ∧
    (simPool ⟨1⟩ ((NewConnectionManager simDriver cfgIdle5Open10).run
        SimWorld.init).world).maxIdleConnsLocked = 5 ∧
    (simPool ⟨1⟩ ((NewConnectionManager simDriver cfgIdle5Open10).run
        SimWorld.init).world).maxOpen = 10 ∧
    (simPool ⟨1⟩ ((NewConnectionManager simDriver cfgIdle5Open10).run
        SimWorld.init).world).maxIdleTime = 300 ∧
    (simPool ⟨1⟩ ((NewConnectionManager simDriver cfgIdle5Open10).run
        SimWorld.init).world).maxLifetime = 3600 ∧
    (simPool ⟨1⟩ ((NewConnectionManager simDriver cfgOpen10).run SimWorld.init).world).maxOpen
        = 10 ∧
    (simPool ⟨1⟩ ((NewConnectionManager simDriver cfgOpen10).run
        SimWorld.init).world).maxIdleConnsLocked = 2 :=
  have h := NewConnectionManager_applies_nonzero_settings simDriver cfgIdle5Open10
    SimWorld.init SimWorld.init ⟨1⟩ (by decide)
  have hp := h.2.2 simPool simPool_uses
  have h10 := (NewConnectionManager_applies_nonzero_settings simDriver cfgOpen10
    SimWorld.init SimWorld.init ⟨1⟩ (by decide)).2.2 simPool simPool_uses
  ⟨by decide, h.2.1.trans (by decide),
    (hp.2.2.2.2.2 (by decide) (by decide)).2 (by decide) |>.1,
    hp.2.2.2.2.1 (by decide),
    hp.2.1.trans (by decide), hp.2.2.1.trans (by decide),
    h10.2.2.2.2.1 (by decide), h10.2.2.2.1.trans (by decide)⟩

/-- C4: when the connect fails, `NewConnectionManager` hands the error to `log.Fatalf`,
which ends the process with status 1: the `return nil, err` behind it is never reached
and the caller receives neither the error nor anything else. -/
theorem NewConnectionManager_connect_error_exits {σ : Type} (d : Driver σ)
    (cfg : DatabaseConfig) (w w1 : σ) (db : Option DBHandle) (e : Err)
    (hconn : d.Connect cfg.Driver cfg.DSN w = ((db, some e), w1)) :
    (NewConnectionManager d cfg).run w =
      ⟨.exited 1, w1, [.connect cfg.Driver cfg.DSN,
        .logFatalf ("failed to connect to sql server: " ++ e)]⟩ ∧
    ∀ r, ((NewConnectionManager d cfg).run w).out ≠ .ret r := by
  have hrun : (Lib.Connect d cfg.Driver cfg.DSN).run w =
      ⟨.ret (db, some e), w1, [.connect cfg.Driver cfg.DSN]⟩ := by
    simp [Lib.Connect, hconn]
  unfold NewConnectionManager
  rw [Prog.run_bind_ret _ _ _ _ _ _ hrun]
  simp [Prog.run_bind]

/-- C4 at a config with an empty data source name: the in-memory library refuses the
connect, and the call ends the process instead of returning that error. -/
theorem NewConnectionManager_connect_error_exits_witness :
    simDriver.Connect cfgNoDSN.Driver cfgNoDSN.DSN SimWorld.init
        = ((none, some "missing data source name"), SimWorld.init) ∧
    ((NewConnectionManager simDriver cfgNoDSN).run SimWorld.init).out = .exited 1 ∧
    ((NewConnectionManager simDriver cfgNoDSN).run SimWorld.init).out
        ≠ .ret (none, some "missing data source name") :=
  have h := NewConnectionManager_connect_error_exits simDriver cfgNoDSN SimWorld.init
    SimWorld.init none "missing data source name" (by decide)
  ⟨by decide, congrArg Step.out h.1, h.2 _⟩

/-! ## Transaction lifecycle: what each call does, by the state of the handle -/

namespace MultiInstruction

variable {σ : Type}

/-- The receiver `CommitAndClose` and `RollbackAndClose` leave: the handle is set to nil
when the library reported no error, and the receiver is as before otherwise. -/
def afterClose (t : MultiInstruction) (err : Option Err) : MultiInstruction :=
  match err with
  | some _ => t
  | none => ⟨t.db, none⟩

/-- The receiver `Begin` leaves: the new handle is stored when the library reported no
error, and the receiver is as before otherwise. -/
def afterBegin (t : MultiInstruction) (r : Option TxHandle × Option Err) : MultiInstruction :=
  match r.2 with
  | some _ => t
  | none => ⟨t.db, r.1⟩

theorem run_Commit_some (d : Driver σ) (t : MultiInstruction) (ctx : Context) (w : σ)
    (h : TxHandle) (ht : t.tx = some h) :
    (Commit d t ctx).run w = ⟨.ret ((d.Commit h w).1, t), (d.Commit h w).2, [.commit h]⟩ := by
  unfold Commit
  rw [Prog.run_bind, ht]
  cases hc : (d.Commit h w).1 <;> simp [Lib.Commit, hc]

theorem run_Rollback_some (d : Driver σ) (t : MultiInstruction) (ctx : Context) (w : σ)
    (h : TxHandle) (ht : t.tx = some h) :
    (Rollback d t ctx).run w =
      ⟨.ret ((d.Rollback h w).1, t), (d.Rollback h w).2, [.rollback h]⟩ := by
  unfold Rollback
  rw [Prog.run_bind, ht]
  cases hc : (d.Rollback h w).1 <;> simp [Lib.Rollback, hc]

theorem run_CommitAndClose_some (d : Driver σ) (t : MultiInstruction) (ctx : Context)
    (w : σ) (h : TxHandle) (ht : t.tx = some h) :
    (CommitAndClose d t ctx).run w =
      ⟨.ret ((d.Commit h w).1, t.afterClose (d.Commit h w).1), (d.Commit h w).2,
        [.commit h]⟩ := by
  unfold CommitAndClose
  rw [Prog.run_bind, ht]
  cases hc : (d.Commit h w).1 <;> simp [Lib.Commit, hc, afterClose]

theorem run_RollbackAndClose_some (d : Driver σ) (t : MultiInstruction) (ctx : Context)
    (w : σ) (h : TxHandle) (ht : t.tx = some h) :
    (RollbackAndClose d t ctx).run w =
      ⟨.ret ((d.Rollback h w).1, t.afterClose (d.Rollback h w).1), (d.Rollback h w).2,
        [.rollback h]⟩ := by
  unfold RollbackAndClose
  rw [Prog.run_bind, ht]
  cases hc : (d.Rollback h w).1 <;> simp [Lib.Rollback, hc, afterClose]

theorem run_Commit_none (d : Driver σ) (t : MultiInstruction) (ctx : Context) (w : σ)
    (ht : t.tx = none) : (Commit d t ctx).run w = ⟨.nilDeref, w, []⟩ := by
  unfold Commit
  rw [Prog.run_bind, ht]
  simp [Lib.Commit]

theorem run_Rollback_none (d : Driver σ) (t : MultiInstruction) (ctx : Context) (w : σ)
    (ht : t.tx = none) : (Rollback d t ctx).run w = ⟨.nilDeref, w, []⟩ := by
  unfold Rollback
  rw [Prog.run_bind, ht]
  simp [Lib.Rollback]

theorem run_CommitAndClose_none (d : Driver σ) (t : MultiInstruction) (ctx : Context)
    (w : σ) (ht : t.tx = none) : (CommitAndClose d t ctx).run w = ⟨.nilDeref, w, []⟩ := by
  unfold CommitAndClose
  rw [Prog.run_bind, ht]
  simp [Lib.Commit]

theorem run_RollbackAndClose_none (d : Driver σ) (t : MultiInstruction) (ctx : Context)
    (w : σ) (ht : t.tx = none) : (RollbackAndClose d t ctx).run w = ⟨.nilDeref, w, []⟩ := by
  unfold RollbackAndClose
  rw [Prog.run_bind, ht]
  simp [Lib.Rollback]

theorem run_Begin_some (d : Driver σ) (t : MultiInstruction) (ctx : Context) (w : σ)
    (h : DBHandle) (ht : t.db = some h) :
    (Begin d t ctx).run w =
      ⟨.ret ((d.BeginTxx h ctx w).1.2, t.afterBegin (d.BeginTxx h ctx w).1),
        (d.BeginTxx h ctx w).2, [.beginTxx h ctx]⟩ := by
  unfold Begin
  rw [Prog.run_bind, ht]
  cases hc : (d.BeginTxx h ctx w).1.2 <;> simp [Lib.BeginTxx, hc, afterBegin, ht]

/-- A successful `CommitAndClose` leaves the handle nil. -/
theorem CommitAndClose_ok_tx (d : Driver σ) (t t1 : MultiInstruction) (ctx : Context)
    (w : σ) (hr : ((CommitAndClose d t ctx).run w).out = .ret (none, t1)) : t1.tx = none := by
  cases ht : t.tx with
  | none => rw [run_CommitAndClose_none d t ctx w ht] at hr; cases hr
  | some h =>
    rw [run_CommitAndClose_some d t ctx w h ht] at hr
    simp only [Outcome.ret.injEq, Prod.mk.injEq] at hr
    rw [← hr.2, hr.1]
    rfl

/-- A successful `RollbackAndClose` leaves the handle nil. -/
theorem RollbackAndClose_ok_tx (d : Driver σ) (t t1 : MultiInstruction) (ctx : Context)
    (w : σ) (hr : ((RollbackAndClose d t ctx).run w).out = .ret (none, t1)) :
    t1.tx = none := by
  cases ht : t.tx with
  | none => rw [run_RollbackAndClose_none d t ctx w ht] at hr; cases hr
  | some h =>
    rw [run_RollbackAndClose_some d t ctx w h ht] at hr
    simp only [Outcome.ret.injEq, Prod.mk.injEq] at hr
    rw [← hr.2, hr.1]
    rfl

/-- A successful `Commit` leaves the receiver as it was, with a handle in it. -/
theorem Commit_ok_tx (d : Driver σ) (t t1 : MultiInstruction) (ctx : Context)
    (w : σ) (hr : ((Commit d t ctx).run w).out = .ret (none, t1)) :
    t1 = t ∧ ∃ h, t.tx = some h := by
  cases ht : t.tx with
  | none => rw [run_Commit_none d t ctx w ht] at hr; cases hr
  | some h =>
    rw [run_Commit_some d t ctx w h ht] at hr
    simp only [Outcome.ret.injEq, Prod.mk.injEq] at hr
    exact ⟨hr.2.symm, h, rfl⟩

/-- A successful `Rollback` leaves the receiver as it was, with a handle in it. -/
theorem Rollback_ok_tx (d : Driver σ) (t t1 : MultiInstruction) (ctx : Context)
    (w : σ) (hr : ((Rollback d t ctx).run w).out = .ret (none, t1)) :
    t1 = t ∧ ∃ h, t.tx = some h := by
  cases ht : t.tx with
  | none => rw [run_Rollback_none d t ctx w ht] at hr; cases hr
  | some h =>
    rw [run_Rollback_some d t ctx w h ht] at hr
    simp only [Outcome.ret.injEq, Prod.mk.injEq] at hr
    exact ⟨hr.2.symm, h, rfl⟩

end MultiInstruction

/-! ## Concrete transactions on the in-memory library -/

/-- The manager `NewConnectionManager` returns on the in-memory library. -/
def simManager : SQLServerConnectionManager := ⟨some ⟨1⟩⟩

/-- The transaction `Begin` leaves on `simManager.GetTransaction` in a fresh world. -/
def txActive : MultiInstruction := ⟨some ⟨1⟩, some ⟨1⟩⟩

/-- The world `Begin` leaves on `simManager.GetTransaction` in a fresh world. -/
def simBegun : SimWorld := ⟨1, [], SqlPool.fresh⟩

/-- The world after the transaction of `txActive` was finished. -/
def simFinished : SimWorld := ⟨1, [⟨1⟩], SqlPool.fresh⟩

/-! ## Transaction lifecycle: the claims -/

/-- C1 (as stated, refuted): on the in-memory library, `Begin` on a fresh transaction
makes it active with handle 1, the library's commit and rollback of that handle
succeed, and after `Commit` (resp. `Rollback`) has returned nil the transaction still
holds handle 1: the handle is not cleared. -/
theorem Commit_clears_handle_counterexample :
    (MultiInstruction.Begin simDriver simManager.GetTransaction ctxLive).run SimWorld.init
      = ⟨.ret (none, txActive), simBegun, [.beginTxx ⟨1⟩ ctxLive]⟩ ∧
    (simDriver.Commit ⟨1⟩ simBegun).1 = none ∧
    (simDriver.Rollback ⟨1⟩ simBegun).1 = none ∧
    ((MultiInstruction.Commit simDriver txActive ctxLive).run simBegun).out
      = .ret (none, ⟨some ⟨1⟩, some ⟨1⟩⟩) ∧
    ((MultiInstruction.Rollback simDriver txActive ctxLive).run simBegun).out
      = .ret (none, ⟨some ⟨1⟩, some ⟨1⟩⟩) ∧
    ¬ (∀ t1, ((MultiInstruction.Commit simDriver txActive ctxLive).run simBegun).out
        = .ret (none, t1) → t1.tx = none) := by
  refine ⟨by decide, by decide, by decide, by decide, by decide, ?_⟩
  intro hall
  have h := hall ⟨some ⟨1⟩, some ⟨1⟩⟩ (by decide)
  cases h

/-- C1 (amended): for every active transaction whose library commit (resp. rollback)
succeeds, `Commit` (resp. `Rollback`) makes that one library call, returns nil and
leaves the receiver as it was: it still holds the same handle. -/
theorem Commit_Rollback_success_keeps_handle {σ : Type} (d : Driver σ)
    (t : MultiInstruction) (h : TxHandle) (ctx : Context) (w : σ) (ht : t.tx = some h) :
    ((d.Commit h w).1 = none →
      (MultiInstruction.Commit d t ctx).run w =
        ⟨.ret (none, ⟨t.db, some h⟩), (d.Commit h w).2, [.commit h]⟩) ∧
    ((d.Rollback h w).1 = none →
      (MultiInstruction.Rollback d t ctx).run w =
        ⟨.ret (none, ⟨t.db, some h⟩), (d.Rollback h w).2, [.rollback h]⟩) := by
  have ht2 : t = ⟨t.db, some h⟩ := by
    cases t
    simp_all
  constructor
  · intro hc
    rw [MultiInstruction.run_Commit_some d t ctx w h ht, hc, ← ht2]
  · intro hc
    rw [MultiInstruction.run_Rollback_some d t ctx w h ht, hc, ← ht2]

/-- C1 (amended) on the in-memory library: after a successful `Commit` or `Rollback`
the active transaction still holds handle 1. -/
theorem Commit_Rollback_success_keeps_handle_witness :
    txActive.tx = some ⟨1⟩ ∧
    (MultiInstruction.Commit simDriver txActive ctxLive).run simBegun =
      ⟨.ret (none, ⟨some ⟨1⟩, some ⟨1⟩⟩), simFinished, [.commit ⟨1⟩]⟩ ∧
    (MultiInstruction.Rollback simDriver txActive ctxLive).run simBegun =
      ⟨.ret (none, ⟨some ⟨1⟩, some ⟨1⟩⟩), simFinished, [.rollback ⟨1⟩]⟩ :=
  have h := Commit_Rollback_success_keeps_handle simDriver txActive ⟨1⟩ ctxLive simBegun rfl
  ⟨rfl, h.1 (by decide), h.2 (by decide)⟩

/-- C2 (as stated, refuted): on the in-memory library, from the same active transaction
and world, `Commit` and `CommitAndClose` both return nil but leave different
transactions (handle 1 kept against handle nil), and likewise `Rollback` and
`RollbackAndClose`. -/
theorem AndClose_equivalence_counterexample :
    ((MultiInstruction.Commit simDriver txActive ctxLive).run simBegun).out
      = .ret (none, ⟨some ⟨1⟩, some ⟨1⟩⟩) ∧
    ((MultiInstruction.CommitAndClose simDriver txActive ctxLive).run simBegun).out
      = .ret (none, ⟨some ⟨1⟩, none⟩) ∧
    ((MultiInstruction.CommitAndClose simDriver txActive ctxLive).run simBegun).out
      ≠ ((MultiInstruction.Commit simDriver txActive ctxLive).run simBegun).out ∧
    ((MultiInstruction.Rollback simDriver txActive ctxLive).run simBegun).out
      = .ret (none, ⟨some ⟨1⟩, some ⟨1⟩⟩) ∧
    ((MultiInstruction.RollbackAndClose simDriver txActive ctxLive).run simBegun).out
      = .ret (none, ⟨some ⟨1⟩, none⟩) ∧
    ((MultiInstruction.RollbackAndClose simDriver txActive ctxLive).run simBegun).out
      ≠ ((MultiInstruction.Rollback simDriver txActive ctxLive).run simBegun).out := by
  decide

/-- C2 (amended): for every transaction state and every library response,
`CommitAndClose` ends like `Commit` with the same returned error, the same world and
the same library calls, and the same receiver unless the call returned nil; when it
returned nil, `Commit` leaves the receiver as it was and `CommitAndClose` leaves it with
the handle set to nil.  The same holds of `RollbackAndClose` and `Rollback`. -/
theorem AndClose_same_error_handle_differs_on_success {σ : Type} (d : Driver σ)
    (t : MultiInstruction) (ctx : Context) (w : σ) :
    (((MultiInstruction.CommitAndClose d t ctx).run w).out.map Prod.fst
        = ((MultiInstruction.Commit d t ctx).run w).out.map Prod.fst ∧
      ((MultiInstruction.CommitAndClose d t ctx).run w).world
        = ((MultiInstruction.Commit d t ctx).run w).world ∧
      ((MultiInstruction.CommitAndClose d t ctx).run w).events
        = ((MultiInstruction.Commit d t ctx).run w).events ∧
      (((MultiInstruction.Commit d t ctx).run w).out.map Prod.fst ≠ .ret none →
        (MultiInstruction.CommitAndClose d t ctx).run w
          = (MultiInstruction.Commit d t ctx).run w) ∧
      (((MultiInstruction.Commit d t ctx).run w).out.map Prod.fst = .ret none →
        ((MultiInstruction.Commit d t ctx).run w).out = .ret (none, t) ∧
        ((MultiInstruction.CommitAndClose d t ctx).run w).out = .ret (none, ⟨t.db, none⟩))) ∧
    (((MultiInstruction.RollbackAndClose d t ctx).run w).out.map Prod.fst
        = ((MultiInstruction.Rollback d t ctx).run w).out.map Prod.fst ∧
      ((MultiInstruction.RollbackAndClose d t ctx).run w).world
        = ((MultiInstruction.Rollback d t ctx).run w).world ∧
      ((MultiInstruction.RollbackAndClose d t ctx).run w).events
        = ((MultiInstruction.Rollback d t ctx).run w).events ∧
      (((MultiInstruction.Rollback d t ctx).run w).out.map Prod.fst ≠ .ret none →
        (MultiInstruction.RollbackAndClose d t ctx).run w
          = (MultiInstruction.Rollback d t ctx).run w) ∧
      (((MultiInstruction.Rollback d t ctx).run w).out.map Prod.fst = .ret none →
        ((MultiInstruction.Rollback d t ctx).run w).out = .ret (none, t) ∧
        ((MultiInstruction.RollbackAndClose d t ctx).run w).out
          = .ret (none, ⟨t.db, none⟩))) := by
  cases ht : t.tx with
  | none =>
    simp [MultiInstruction.run_Commit_none d t ctx w ht,
      MultiInstruction.run_CommitAndClose_none d t ctx w ht,
      MultiInstruction.run_Rollback_none d t ctx w ht,
      MultiInstruction.run_RollbackAndClose_none d t ctx w ht, Outcome.map]
  | some h =>
    rw [MultiInstruction.run_Commit_some d t ctx w h ht,
      MultiInstruction.run_CommitAndClose_some d t ctx w h ht,
      MultiInstruction.run_Rollback_some d t ctx w h ht,
      MultiInstruction.run_RollbackAndClose_some d t ctx w h ht]
    constructor
    · cases hc : (d.Commit h w).1 <;> simp [Outcome.map, MultiInstruction.afterClose]
    · cases hc : (d.Rollback h w).1 <;> simp [Outcome.map, MultiInstruction.afterClose]

/-- C2 (amended) on the in-memory library: a second commit of the finished transaction is
refused, and then `CommitAndClose` and `Commit` end alike, handle kept; the first commit
succeeds, and then only `CommitAndClose` clears the handle. -/
theorem AndClose_same_error_handle_differs_on_success_witness :
    (MultiInstruction.CommitAndClose simDriver txActive ctxLive).run simFinished
      = (MultiInstruction.Commit simDriver txActive ctxLive).run simFinished ∧
    ((MultiInstruction.Commit simDriver txActive ctxLive).run simFinished).out
      = .ret (some simErrTxDone, txActive) ∧
    ((MultiInstruction.CommitAndClose simDriver txActive ctxLive).run simBegun).out
      = .ret (none, ⟨some ⟨1⟩, none⟩) :=
  ⟨(AndClose_same_error_handle_differs_on_success simDriver txActive ctxLive simFinished).1.2.2.2.1
      (by decide),
    by decide,
    ((AndClose_same_error_handle_differs_on_success simDriver txActive ctxLive simBegun).1.2.2.2.2
      (by decide)).2⟩

/-- C5: a transaction fresh from `GetTransaction`, or left by a successful
`CommitAndClose` or `RollbackAndClose`, holds no handle, and on it each of Query,
QueryRow, Exec, Prepare, Select, Get, Rebind and NamedExec fails on the nil handle
(the nil-dereference panic) with no call into the library and the world untouched.
`GetTransaction` itself makes no library call: it only builds the value. -/
theorem inactive_transaction_operations_fault {σ : Type} (d : Driver σ)
    (t : MultiInstruction) (ctx : Context) (query : String) (args : List Value)
    (dest : Dest) (arg : Value) (w : σ)
    (hinactive : (∃ cm : SQLServerConnectionManager, t = cm.GetTransaction) ∨
      (∃ t0 c0 w0, ((MultiInstruction.CommitAndClose d t0 c0).run w0).out = .ret (none, t)) ∨
      (∃ t0 c0 w0, ((MultiInstruction.RollbackAndClose d t0 c0).run w0).out
        = .ret (none, t))) :
    t.tx = none ∧
    (t.Query d ctx query args).run w = ⟨.nilDeref, w, []⟩ ∧
    (t.QueryRow d ctx query args).run w = ⟨.nilDeref, w, []⟩ ∧
    (t.Exec d ctx query args).run w = ⟨.nilDeref, w, []⟩ ∧
    (t.Prepare d ctx query).run w = ⟨.nilDeref, w, []⟩ ∧
    (t.Select d ctx dest query args).run w = ⟨.nilDeref, w, []⟩ ∧
    (t.Get d ctx dest query args).run w = ⟨.nilDeref, w, []⟩ ∧
    (t.Rebind d query).run w = ⟨.nilDeref, w, []⟩ ∧
    (t.NamedExec d ctx query arg).run w = ⟨.nilDeref, w, []⟩ := by
  have ht : t.tx = none := by
    rcases hinactive with ⟨cm, rfl⟩ | ⟨t0, c0, w0, hr⟩ | ⟨t0, c0, w0, hr⟩
    · rfl
    · exact MultiInstruction.CommitAndClose_ok_tx d t0 t c0 w0 hr
    · exact MultiInstruction.RollbackAndClose_ok_tx d t0 t c0 w0 hr
  simp [ht, MultiInstruction.Query, MultiInstruction.QueryRow, MultiInstruction.Exec,
    MultiInstruction.Prepare, MultiInstruction.Select, MultiInstruction.Get,
    MultiInstruction.Rebind, MultiInstruction.NamedExec]

/-- C5 on the in-memory library: a query on the transaction fresh from the manager, and
an exec on the transaction left by a successful `CommitAndClose`, both panic on the nil
handle without reaching the library. -/
theorem inactive_transaction_operations_fault_witness :
    (simManager.GetTransaction.Query simDriver ctxLive "SELECT 1" []).run SimWorld.init
      = ⟨.nilDeref, SimWorld.init, []⟩ ∧
    ((MultiInstruction.CommitAndClose simDriver txActive ctxLive).run simBegun).out
      = .ret (none, ⟨some ⟨1⟩, none⟩) ∧
    (MultiInstruction.Exec simDriver ⟨some ⟨1⟩, none⟩ ctxLive "INSERT INTO t(v) VALUES(1)"
        []).run simFinished
      = ⟨.nilDeref, simFinished, []⟩ :=
  ⟨(inactive_transaction_operations_fault simDriver simManager.GetTransaction ctxLive
      "SELECT 1" [] ⟨0⟩ .null SimWorld.init (Or.inl ⟨simManager, rfl⟩)).2.1,
    by decide,
    (inactive_transaction_operations_fault simDriver ⟨some ⟨1⟩, none⟩ ctxLive
      "INSERT INTO t(v) VALUES(1)" [] ⟨0⟩ .null simFinished
      (Or.inr (Or.inl ⟨txActive, ctxLive, simBegun, by decide⟩))).2.2.2.1⟩

/-- C6 (as stated, refuted): on the in-memory library, `CommitAndClose` (resp.
`RollbackAndClose`) on the active transaction succeeds and leaves the handle nil; a
further `Commit` or `Rollback` on that closed transaction panics on the nil handle: it
returns nothing, so no error reaches the caller. -/
theorem closed_Commit_returns_error_counterexample :
    (MultiInstruction.CommitAndClose simDriver txActive ctxLive).run simBegun
      = ⟨.ret (none, ⟨some ⟨1⟩, none⟩), simFinished, [.commit ⟨1⟩]⟩ ∧
    (MultiInstruction.RollbackAndClose simDriver txActive ctxLive).run simBegun
      = ⟨.ret (none, ⟨some ⟨1⟩, none⟩), simFinished, [.rollback ⟨1⟩]⟩ ∧
    (MultiInstruction.Commit simDriver ⟨some ⟨1⟩, none⟩ ctxLive).run simFinished
      = ⟨.nilDeref, simFinished, []⟩ ∧
    (MultiInstruction.Rollback simDriver ⟨some ⟨1⟩, none⟩ ctxLive).run simFinished
      = ⟨.nilDeref, simFinished, []⟩ ∧
    ¬ (∃ e t1, ((MultiInstruction.Commit simDriver ⟨some ⟨1⟩, none⟩ ctxLive).run
        simFinished).out = .ret (some e, t1)) := by
  refine ⟨by decide, by decide, by decide, by decide, ?_⟩
  rintro ⟨e, t1, h⟩
  rw [MultiInstruction.run_Commit_none simDriver _ ctxLive simFinished rfl] at h
  cases h

/-- The transactions of the in-memory library are database/sql's. -/
theorem simTxDone_uses : UsesSqlTx simDriver simTxDone := by
  constructor
  · intro h w hc
    by_cases hf : h ∈ w.finished
    · simp [simDriver, hf] at hc
    · simp [simDriver, simTxDone, hf]
  · intro h w hc
    by_cases hf : h ∈ w.finished
    · simp [simDriver, hf] at hc
    · simp [simDriver, simTxDone, hf]
  · intro h w hd
    have hf : h ∈ w.finished := by simpa [simTxDone] using hd
    simp [simDriver, hf, simErrTxDone]
  · intro h w hd
    have hf : h ∈ w.finished := by simpa [simTxDone] using hd
    simp [simDriver, hf, simErrTxDone]

/-- C6 (amended): on a library whose transactions are database/sql's, a transaction `t`
closed by a successful `Commit` or `Rollback` still holds its handle, the library knows
it as finished in the world `w1` that call left, and there, as in every world where it
is finished, a further `Commit` or `Rollback` calls the library on the handle and fails
by returning the library's error `ErrTxDone` to the caller.  A transaction closed by a
successful `CommitAndClose` or `RollbackAndClose` holds no handle, and on any library a
further `Commit` or `Rollback` panics on the nil handle without calling the library: no
error is returned. -/
theorem closed_Commit_Rollback_again {σ : Type} (d : Driver σ) (t0 t : MultiInstruction)
    (c0 ctx : Context) (w0 w : σ) :
    (∀ (done : TxHandle → σ → Bool) (w1 : σ), UsesSqlTx d done →
      ((((MultiInstruction.Commit d t0 c0).run w0).out = .ret (none, t) ∧
          w1 = ((MultiInstruction.Commit d t0 c0).run w0).world) ∨
        (((MultiInstruction.Rollback d t0 c0).run w0).out = .ret (none, t) ∧
          w1 = ((MultiInstruction.Rollback d t0 c0).run w0).world)) →
      ∃ h, t.tx = some h ∧ done h w1 = true ∧
        ∀ w2, done h w2 = true →
          (MultiInstruction.Commit d t ctx).run w2
            = ⟨.ret (some ErrTxDone, t), (d.Commit h w2).2, [.commit h]⟩ ∧
          (MultiInstruction.Rollback d t ctx).run w2
            = ⟨.ret (some ErrTxDone, t), (d.Rollback h w2).2, [.rollback h]⟩) ∧
    ((((MultiInstruction.CommitAndClose d t0 c0).run w0).out = .ret (none, t) ∨
        ((MultiInstruction.RollbackAndClose d t0 c0).run w0).out = .ret (none, t)) →
      t.tx = none ∧
      (MultiInstruction.Commit d t ctx).run w = ⟨.nilDeref, w, []⟩ ∧
      (MultiInstruction.Rollback d t ctx).run w = ⟨.nilDeref, w, []⟩ ∧
      (∀ r, ((MultiInstruction.Commit d t ctx).run w).out ≠ .ret r) ∧
      (∀ r, ((MultiInstruction.Rollback d t ctx).run w).out ≠ .ret r)) := by
  constructor
  · intro done w1 hL hprev
    have hkeep : t = t0 ∧ ∃ h, t0.tx = some h ∧ done h w1 = true := by
      rcases hprev with ⟨hr, hw⟩ | ⟨hr, hw⟩
      · obtain ⟨ht, h, hh⟩ := MultiInstruction.Commit_ok_tx d t0 t c0 w0 hr
        refine ⟨ht, h, hh, ?_⟩
        rw [MultiInstruction.run_Commit_some d t0 c0 w0 h hh] at hr hw
        simp only [Outcome.ret.injEq, Prod.mk.injEq] at hr
        rw [hw]
        exact hL.commit_ok h w0 hr.1
      · obtain ⟨ht, h, hh⟩ := MultiInstruction.Rollback_ok_tx d t0 t c0 w0 hr
        refine ⟨ht, h, hh, ?_⟩
        rw [MultiInstruction.run_Rollback_some d t0 c0 w0 h hh] at hr hw
        simp only [Outcome.ret.injEq, Prod.mk.injEq] at hr
        rw [hw]
        exact hL.rollback_ok h w0 hr.1
    obtain ⟨rfl, h, ht, hd⟩ := hkeep
    refine ⟨h, ht, hd, ?_⟩
    intro w2 hd2
    constructor
    · rw [MultiInstruction.run_Commit_some d t ctx w2 h ht, hL.commit_done h w2 hd2]
    · rw [MultiInstruction.run_Rollback_some d t ctx w2 h ht, hL.rollback_done h w2 hd2]
  · intro hprev
    have ht : t.tx = none := by
      rcases hprev with hr | hr
      · exact MultiInstruction.CommitAndClose_ok_tx d t0 t c0 w0 hr
      · exact MultiInstruction.RollbackAndClose_ok_tx d t0 t c0 w0 hr
    refine ⟨ht, MultiInstruction.run_Commit_none d t ctx w ht,
      MultiInstruction.run_Rollback_none d t ctx w ht, ?_, ?_⟩
    · intro r hr
      rw [MultiInstruction.run_Commit_none d t ctx w ht] at hr
      cases hr
    · intro r hr
      rw [MultiInstruction.run_Rollback_none d t ctx w ht] at hr
      cases hr

/-- C6 (amended) on the in-memory library: after a successful `Commit` a further `Commit`
and a further `Rollback` return `ErrTxDone`; after a successful `CommitAndClose` a
further `Commit` panics on the nil handle. -/
theorem closed_Commit_Rollback_again_witness :
    (MultiInstruction.Commit simDriver txActive ctxLive).run simBegun
      = ⟨.ret (none, txActive), simFinished, [.commit ⟨1⟩]⟩ ∧
    ((MultiInstruction.Commit simDriver txActive ctxDone).run simFinished).out
      = .ret (some ErrTxDone, txActive) ∧
    ((MultiInstruction.Rollback simDriver txActive ctxDone).run simFinished).out
      = .ret (some ErrTxDone, txActive) ∧
    ((MultiInstruction.CommitAndClose simDriver txActive ctxLive).run simBegun).out
      = .ret (none, ⟨some ⟨1⟩, none⟩) ∧
    (MultiInstruction.Commit simDriver ⟨some ⟨1⟩, none⟩ ctxDone).run simFinished
      = ⟨.nilDeref, simFinished, []⟩ := by
  have hA := (closed_Commit_Rollback_again simDriver txActive txActive ctxLive ctxDone simBegun
    simFinished).1 simTxDone simFinished simTxDone_uses (Or.inl ⟨by decide, by decide⟩)
  have hB := (closed_Commit_Rollback_again simDriver txActive ⟨some ⟨1⟩, none⟩ ctxLive ctxDone
    simBegun simFinished).2 (Or.inl (by decide))
  obtain ⟨h, ht, hd, hall⟩ := hA
  cases ht
  exact ⟨by decide, congrArg Step.out (hall simFinished hd).1,
    congrArg Step.out (hall simFinished hd).2, by decide, hB.2.1⟩

/-- C9: a failed lifecycle call leaves the transaction as it was.  When the library
rejects the begin, `Begin` returns the library's error and the receiver is unchanged;
when the library's commit (resp. rollback) fails inside `CommitAndClose` (resp.
`RollbackAndClose`), the library's error is returned and the receiver, handle included,
is unchanged. -/
theorem failed_lifecycle_call_keeps_state {σ : Type} (d : Driver σ) (t : MultiInstruction)
    (ctx : Context) (w : σ) :
    (∀ hdb e, t.db = some hdb → (d.BeginTxx hdb ctx w).1.2 = some e →
      ((MultiInstruction.Begin d t ctx).run w).out = .ret (some e, t)) ∧
    (∀ h e, t.tx = some h → (d.Commit h w).1 = some e →
      ((MultiInstruction.CommitAndClose d t ctx).run w).out = .ret (some e, t)) ∧
    (∀ h e, t.tx = some h → (d.Rollback h w).1 = some e →
      ((MultiInstruction.RollbackAndClose d t ctx).run w).out = .ret (some e, t)) := by
  refine ⟨?_, ?_, ?_⟩
  · intro hdb e ht he
    rw [MultiInstruction.run_Begin_some d t ctx w hdb ht]
    simp [MultiInstruction.afterBegin, he]
  · intro h e ht he
    rw [MultiInstruction.run_CommitAndClose_some d t ctx w h ht]
    simp [MultiInstruction.afterClose, he]
  · intro h e ht he
    rw [MultiInstruction.run_RollbackAndClose_some d t ctx w h ht]
    simp [MultiInstruction.afterClose, he]

/-- C9 on the in-memory library: a begin under a cancelled context is rejected and the
fresh transaction stays without a handle; a commit-and-close and a rollback-and-close
of the finished transaction are rejected and the handle stays. -/
theorem failed_lifecycle_call_keeps_state_witness :
    ((MultiInstruction.Begin simDriver simManager.GetTransaction ctxDone).run
        SimWorld.init).out = .ret (some "context canceled", ⟨some ⟨1⟩, none⟩) ∧
    ((MultiInstruction.CommitAndClose simDriver txActive ctxLive).run simFinished).out
      = .ret (some simErrTxDone, ⟨some ⟨1⟩, some ⟨1⟩⟩) ∧
    ((MultiInstruction.RollbackAndClose simDriver txActive ctxLive).run simFinished).out
      = .ret (some simErrTxDone, ⟨some ⟨1⟩, some ⟨1⟩⟩) :=
  ⟨(failed_lifecycle_call_keeps_state simDriver simManager.GetTransaction ctxDone
      SimWorld.init).1 ⟨1⟩ "context canceled" rfl (by decide),
    (failed_lifecycle_call_keeps_state simDriver txActive ctxLive simFinished).2.1
      ⟨1⟩ simErrTxDone rfl (by decide),
    (failed_lifecycle_call_keeps_state simDriver txActive ctxLive simFinished).2.2
      ⟨1⟩ simErrTxDone rfl (by decide)⟩

/-- C10: `Commit`, `Rollback`, `CommitAndClose` and `RollbackAndClose` do not look at
their context: for every transaction state, library and world, any two contexts give
the same run, that is the same outcome (returned error and resulting transaction),
the same library calls and the same world. -/
theorem lifecycle_end_ignores_context {σ : Type} (d : Driver σ) (t : MultiInstruction)
    (c1 c2 : Context) (w : σ) :
    (MultiInstruction.Commit d t c1).run w = (MultiInstruction.Commit d t c2).run w ∧
    (MultiInstruction.Rollback d t c1).run w = (MultiInstruction.Rollback d t c2).run w ∧
    (MultiInstruction.CommitAndClose d t c1).run w
      = (MultiInstruction.CommitAndClose d t c2).run w ∧
    (MultiInstruction.RollbackAndClose d t c1).run w
      = (MultiInstruction.RollbackAndClose d t c2).run w :=
  ⟨rfl, rfl, rfl, rfl⟩

/-! ## Query and command operations -/

/-- The run of a pure forwarding call: the library's response `r` (returned value and
next world) is passed on as it is, and the one effect is the library call `e`. -/
def forwarded {σ α : Type} (r : α × σ) (e : Event) : Step σ α := ⟨.ret r.1, r.2, [e]⟩

/-- C7: each query or command operation of the single executor (on a handle that is not
nil) and of an active transaction, and `Begin`, makes exactly one library call, the
corresponding one, with the context, SQL text and arguments it was given, and returns
the library's response as it is; the world it leaves is the library's.  `Begin` returns
the library's error and, when that is nil, stores the library's handle. -/
theorem operations_forward_to_library {σ : Type} (d : Driver σ) (s : SingleInstruction)
    (t : MultiInstruction) (ctx : Context) (query : String) (args : List Value)
    (dest : Dest) (arg : Value) (w : σ) :
    (∀ h, s.db = some h →
      (s.Query d ctx query args).run w
        = forwarded (d.QueryxContext (.db h) ctx query args w)
            (.queryxContext (.db h) ctx query args) ∧
      (s.QueryRow d ctx query args).run w
        = forwarded (d.QueryRowxContext (.db h) ctx query args w)
            (.queryRowxContext (.db h) ctx query args) ∧
      (s.Exec d ctx query args).run w
        = forwarded (d.ExecContext (.db h) ctx query args w)
            (.execContext (.db h) ctx query args) ∧
      (s.Prepare d ctx query).run w
        = forwarded (d.PreparexContext (.db h) ctx query w)
            (.preparexContext (.db h) ctx query) ∧
      (s.Select d ctx dest query args).run w
        = forwarded (d.SelectContext (.db h) ctx dest query args w)
            (.selectContext (.db h) ctx dest query args) ∧
      (s.Get d ctx dest query args).run w
        = forwarded (d.GetContext (.db h) ctx dest query args w)
            (.getContext (.db h) ctx dest query args) ∧
      (s.Rebind d query).run w
        = forwarded (d.Rebind (.db h) query, w) (.rebind (.db h) query) ∧
      (s.NamedExec d ctx query arg).run w
        = forwarded (d.NamedExecContext (.db h) ctx query arg w)
            (.namedExecContext (.db h) ctx query arg)) ∧
    (∀ h, t.tx = some h →
      (t.Query d ctx query args).run w
        = forwarded (d.QueryxContext (.tx h) ctx query args w)
            (.queryxContext (.tx h) ctx query args) ∧
      (t.QueryRow d ctx query args).run w
        = forwarded (d.QueryRowxContext (.tx h) ctx query args w)
            (.queryRowxContext (.tx h) ctx query args) ∧
      (t.Exec d ctx query args).run w
        = forwarded (d.ExecContext (.tx h) ctx query args w)
            (.execContext (.tx h) ctx query args) ∧
      (t.Prepare d ctx query).run w
        = forwarded (d.PreparexContext (.tx h) ctx query w)
            (.preparexContext (.tx h) ctx query) ∧
      (t.Select d ctx dest query args).run w
        = forwarded (d.SelectContext (.tx h) ctx dest query args w)
            (.selectContext (.tx h) ctx dest query args) ∧
      (t.Get d ctx dest query args).run w
        = forwarded (d.GetContext (.tx h) ctx dest query args w)
            (.getContext (.tx h) ctx dest query args) ∧
      (t.Rebind d query).run w
        = forwarded (d.Rebind (.tx h) query, w) (.rebind (.tx h) query) ∧
      (t.NamedExec d ctx query arg).run w
        = forwarded (d.NamedExecContext (.tx h) ctx query arg w)
            (.namedExecContext (.tx h) ctx query arg)) ∧
    (∀ h, t.db = some h →
      (t.Begin d ctx).run w
        = forwarded (((d.BeginTxx h ctx w).1.2, t.afterBegin (d.BeginTxx h ctx w).1),
            (d.BeginTxx h ctx w).2) (.beginTxx h ctx)) := by
  refine ⟨?_, ?_, ?_⟩
  · intro h hs
    simp [hs, forwarded, SingleInstruction.Query, SingleInstruction.QueryRow,
      SingleInstruction.Exec, SingleInstruction.Prepare, SingleInstruction.Select,
      SingleInstruction.Get, SingleInstruction.Rebind, SingleInstruction.NamedExec,
      Lib.QueryxContext, Lib.QueryRowxContext, Lib.ExecContext, Lib.PreparexContext,
      Lib.SelectContext, Lib.GetContext, Lib.Rebind, Lib.NamedExecContext]
  · intro h ht
    simp [ht, forwarded, MultiInstruction.Query, MultiInstruction.QueryRow,
      MultiInstruction.Exec, MultiInstruction.Prepare, MultiInstruction.Select,
      MultiInstruction.Get, MultiInstruction.Rebind, MultiInstruction.NamedExec,
      Lib.QueryxContext, Lib.QueryRowxContext, Lib.ExecContext, Lib.PreparexContext,
      Lib.SelectContext, Lib.GetContext, Lib.Rebind, Lib.NamedExecContext]
  · intro h ht
    exact MultiInstruction.run_Begin_some d t ctx w h ht

/-- C7 on the in-memory library: an exec on the single executor of the manager and a
query on the active transaction each make the one library call with the arguments
given and return the library's answer, and `Begin` stores the handle the library
hands out. -/
theorem operations_forward_to_library_witness :
    (simManager.GetQuery.Exec simDriver ctxLive "INSERT INTO t(v) VALUES(?)" [.int 1]).run
        SimWorld.init
      = ⟨.ret (some ⟨0⟩, none), SimWorld.init,
          [.execContext (.db ⟨1⟩) ctxLive "INSERT INTO t(v) VALUES(?)" [.int 1]]⟩ ∧
    (txActive.Query simDriver ctxLive "SELECT v FROM t" []).run simBegun
      = ⟨.ret (some ⟨0⟩, none), simBegun,
          [.queryxContext (.tx ⟨1⟩) ctxLive "SELECT v FROM t" []]⟩ ∧
    (simManager.GetTransaction.Begin simDriver ctxLive).run SimWorld.init
      = ⟨.ret (none, txActive), simBegun, [.beginTxx ⟨1⟩ ctxLive]⟩ :=
  ⟨((operations_forward_to_library simDriver simManager.GetQuery txActive ctxLive
      "INSERT INTO t(v) VALUES(?)" [.int 1] ⟨0⟩ .null SimWorld.init).1 ⟨1⟩ rfl).2.2.1,
    ((operations_forward_to_library simDriver simManager.GetQuery txActive ctxLive
      "SELECT v FROM t" [] ⟨0⟩ .null simBegun).2.1 ⟨1⟩ rfl).1,
    (operations_forward_to_library simDriver simManager.GetQuery simManager.GetTransaction
      ctxLive "" [] ⟨0⟩ .null SimWorld.init).2.2 ⟨1⟩ rfl⟩

/-! ## Placeholder rewriting -/

namespace Sqlx

theorem digitChar_ne_question (n : Nat) (hn : n < 10) : Nat.digitChar n ≠ '?' := by
  interval_cases n <;> decide

theorem toDigitsCore_ne_question (fuel : Nat) :
    ∀ (n : Nat) (ds : List Char), (∀ c ∈ ds, c ≠ '?') →
      ∀ c ∈ Nat.toDigitsCore 10 fuel n ds, c ≠ '?' := by
  induction fuel with
  | zero =>
    intro n ds hds c hc
    exact hds c (by simpa [Nat.toDigitsCore] using hc)
  | succ f ih =>
    intro n ds hds c hc
    have hcons : ∀ x ∈ Nat.digitChar (n % 10) :: ds, x ≠ '?' := by
      intro x hx
      rcases List.mem_cons.mp hx with rfl | hx
      · exact digitChar_ne_question _ (Nat.mod_lt n (by decide))
      · exact hds x hx
    unfold Nat.toDigitsCore at hc
    by_cases hz : n / 10 = 0
    · simp only [hz, if_true] at hc
      exact hcons c hc
    · simp only [hz, if_false] at hc
      exact ih (n / 10) _ hcons c hc

/-- A number written in decimal has no `?` in it. -/
theorem toDigits_ne_question (n : Nat) : ∀ c ∈ Nat.toDigits 10 n, c ≠ '?' := by
  intro c hc
  exact toDigitsCore_ne_question (n + 1) n [] (by simp) c hc

theorem mark_ne_question (bt : BindType) : ∀ c ∈ mark bt, c ≠ '?' := by
  intro c hc
  cases bt <;> simp [mark] at hc <;> rcases hc with h | h | h | h <;> subst_vars <;> decide

/-- The rewritten query has no `?` left in it. -/
theorem rebindFrom_ne_question (bt : BindType) (cs : List Char) :
    ∀ (j : Nat), ∀ c ∈ rebindFrom bt j cs, c ≠ '?' := by
  induction cs with
  | nil =>
    intro j c hc
    simp [rebindFrom] at hc
  | cons x xs ih =>
    intro j c hc
    by_cases hx : x = '?'
    · simp only [rebindFrom, hx, if_true, List.mem_append] at hc
      rcases hc with (hc | hc) | hc
      · exact mark_ne_question bt c hc
      · exact toDigits_ne_question (j + 1) c hc
      · exact ih (j + 1) c hc
    · simp only [rebindFrom, hx, if_false, List.mem_cons] at hc
      rcases hc with rfl | hc
      · exact hx
      · exact ih j c hc

/-- A query with no `?` in it is copied as it is. -/
theorem rebindFrom_of_ne_question (bt : BindType) (cs : List Char) :
    ∀ (j : Nat), (∀ c ∈ cs, c ≠ '?') → rebindFrom bt j cs = cs := by
  induction cs with
  | nil =>
    intro j _
    rfl
  | cons x xs ih =>
    intro j h
    have hx : x ≠ '?' := h x (List.mem_cons_self x xs)
    simp only [rebindFrom, hx, if_false]
    rw [ih j (fun c hc => h c (List.mem_cons_of_mem x hc))]

/-- A query with no `?` in it is returned as it is, whatever the dialect. -/
theorem Rebind_of_ne_question (bt : BindType) (q : String) (h : ∀ c ∈ q.toList, c ≠ '?') :
    Rebind bt q = q := by
  cases bt
  case UNKNOWN => rfl
  case QUESTION => rfl
  all_goals
    simp only [Rebind]
    rw [rebindFrom_of_ne_question _ _ 0 h]
    rfl

/-- sqlx `Rebind` is idempotent on every query, for every dialect. -/
theorem Rebind_Rebind (bt : BindType) (q : String) : Rebind bt (Rebind bt q) = Rebind bt q := by
  cases bt
  case UNKNOWN => rfl
  case QUESTION => rfl
  all_goals
    exact Rebind_of_ne_question _ _ (fun c hc => rebindFrom_ne_question _ _ 0 c hc)

end Sqlx

/-- C8: `Rebind` hands the query to the library's placeholder rewriting of the handle
it holds and returns the answer.  On a library whose rewriting is sqlx's for the dialect
of the configured driver (the same for the pool and for a transaction begun from it),
for every query `q`, rebinding the rebound query returns what rebinding `q` returns,
on the single executor of a manager and on an active transaction begun from that
manager; this covers every query already written with the native placeholders of the
dialect, whether or not it also contains a `?`.  A query with no `?` in it is returned
as it is. -/
theorem Rebind_idempotent_on_native_query {σ : Type} (d : Driver σ)
    (cm : SQLServerConnectionManager) (t : MultiInstruction) (hdb : DBHandle)
    (htx : TxHandle) (c0 : Context) (w0 w : σ) (bt : BindType)
    (hcm : cm.db = some hdb)
    (hbegin : ((cm.GetTransaction.Begin d c0).run w0).out = .ret (none, t))
    (ht : t.tx = some htx)
    (hR_db : ∀ q, d.Rebind (.db hdb) q = Sqlx.Rebind bt q)
    (hR_tx : ∀ q, d.Rebind (.tx htx) q = Sqlx.Rebind bt q) :
    t.db = cm.db ∧
    ∀ q : String,
      ((cm.GetQuery.Rebind d q >>= fun q1 => cm.GetQuery.Rebind d q1).run w).out
        = ((cm.GetQuery.Rebind d q).run w).out ∧
      ((t.Rebind d q >>= fun q1 => t.Rebind d q1).run w).out = ((t.Rebind d q).run w).out ∧
      ((cm.GetQuery.Rebind d q).run w).out = .ret (Sqlx.Rebind bt q) ∧
      ((t.Rebind d q).run w).out = .ret (Sqlx.Rebind bt q) ∧
      ((∀ c ∈ q.toList, c ≠ '?') →
        ((cm.GetQuery.Rebind d q).run w).out = .ret q ∧
        ((t.Rebind d q).run w).out = .ret q) := by
  have hs : ∀ q, (cm.GetQuery.Rebind d q).run w
      = ⟨.ret (Sqlx.Rebind bt q), w, [.rebind (.db hdb) q]⟩ := by
    intro q
    simp [SQLServerConnectionManager.GetQuery, NewSingleInstruction, SingleInstruction.Rebind,
      hcm, Lib.Rebind, hR_db]
  have hm : ∀ q, (t.Rebind d q).run w
      = ⟨.ret (Sqlx.Rebind bt q), w, [.rebind (.tx htx) q]⟩ := by
    intro q
    simp [MultiInstruction.Rebind, ht, Lib.Rebind, hR_tx]
  have hdbeq : t.db = cm.db := by
    have hb := MultiInstruction.run_Begin_some d cm.GetTransaction c0 w0 hdb
      (by simp [SQLServerConnectionManager.GetTransaction, NewMultiInstruction, hcm])
    rw [hb] at hbegin
    simp only [Outcome.ret.injEq, Prod.mk.injEq] at hbegin
    rw [← hbegin.2]
    simp [MultiInstruction.afterBegin, hbegin.1, SQLServerConnectionManager.GetTransaction,
      NewMultiInstruction]
  refine ⟨hdbeq, fun q => ⟨?_, ?_, ?_, ?_, ?_⟩⟩
  · rw [Prog.run_bind_ret _ _ _ _ _ _ (hs q), hs, hs, Sqlx.Rebind_Rebind]
  · rw [Prog.run_bind_ret _ _ _ _ _ _ (hm q), hm, hm, Sqlx.Rebind_Rebind]
  · rw [hs]
  · rw [hm]
  · intro hq
    rw [hs, hm, Sqlx.Rebind_of_ne_question bt q hq]
    exact ⟨rfl, rfl⟩

/-- C8 on the in-memory library, whose dialect numbers placeholders as `$k`: a query
that uses `$1` and still has two `?` in it is rebound to the same text by one rebinding
and by two, on the single executor and on the active transaction; a query written only
with `$1` is returned as it is. -/
theorem Rebind_idempotent_on_native_query_witness :
    simDriver.Rebind (.db ⟨1⟩) "SELECT v FROM t WHERE tags ? $1 AND id = ?"
      = "SELECT v FROM t WHERE tags $1 $1 AND id = $2" ∧
    ((simManager.GetQuery.Rebind simDriver "SELECT v FROM t WHERE tags ? $1 AND id = ?" >>=
        fun q1 => simManager.GetQuery.Rebind simDriver q1).run simBegun).out
      = .ret "SELECT v FROM t WHERE tags $1 $1 AND id = $2" ∧
    ((txActive.Rebind simDriver "SELECT v FROM t WHERE tags ? $1 AND id = ?" >>=
        fun q1 => txActive.Rebind simDriver q1).run simBegun).out
      = .ret "SELECT v FROM t WHERE tags $1 $1 AND id = $2" ∧
    ((txActive.Rebind simDriver "SELECT v FROM t WHERE id = $1").run simBegun).out
      = .ret "SELECT v FROM t WHERE id = $1" :=
  have h := (Rebind_idempotent_on_native_query simDriver simManager txActive ⟨1⟩ ⟨1⟩ ctxLive
    SimWorld.init simBegun .DOLLAR rfl (by decide) rfl (fun _ => rfl) (fun _ => rfl)).2
  have h1 := h "SELECT v FROM t WHERE tags ? $1 AND id = ?"
  ⟨by decide, (h1.1.trans h1.2.2.1).trans (by decide),
    (h1.2.1.trans h1.2.2.2.1).trans (by decide),
    ((h "SELECT v FROM t WHERE id = $1").2.2.2.2 (by decide)).2⟩

end Nansql
